import Mathlib

/-!
Verification of the gateway provisioning orchestrator in
`01-tutorials/08-AgentCore-policy/03-Fine-Grained-Access-Control/setup-gateway.py`.

The Python script is shallowly embedded: JSON values are modelled by `JVal`,
the local file plus the remote cloud state by `World`, every remote call by a
pure transition on `World` that also records an `Event`, and each Python
function by a Lean function in the state-and-error monad `SM`.
-/

set_option maxHeartbeats 1000000
set_option linter.unusedVariables false

namespace SetupGateway

/-- A JSON value, as produced by Python's `json.load`.  Python `None` and JSON
`null` coincide, so a dictionary `.get` miss and a stored null are both
represented by `JVal.null` downstream. -/
inductive JVal where
  | null : JVal
  | bool (b : Bool) : JVal
  | num (n : Int) : JVal
  | str (s : String) : JVal
  | arr (elems : List JVal) : JVal
  | obj (fields : List (String × JVal)) : JVal

/-- An exception, identified by what the script inspects: the class name
(Python `type(exc).__name__`) and the message (`str(exc)`). -/
structure PyExc where
  typeName : String
  msg : String
  deriving DecidableEq, Repr

def pyAttributeError : PyExc :=
  ⟨"AttributeError", "object has no attribute get"⟩

def pyTypeError : PyExc :=
  ⟨"TypeError", "argument of type is not iterable"⟩

def pyUnicodeDecodeError : PyExc :=
  ⟨"UnicodeDecodeError", "invalid start byte"⟩

def pyResourceNotFound : PyExc :=
  ⟨"ResourceNotFoundException", "Function not found"⟩

def pyEntityAlreadyExists : PyExc :=
  ⟨"EntityAlreadyExistsException", "Role already exists"⟩

def pyConflict : PyExc :=
  ⟨"ConflictException", "Target already exists"⟩

def pyParamValidation : PyExc :=
  ⟨"ParamValidationError", "invalid type for parameter"⟩

/-- Whether the first character list is a prefix of the second. -/
def charsPrefix : List Char → List Char → Bool
  | [], _ => true
  | _ :: _, [] => false
  | a :: as, b :: bs => a = b && charsPrefix as bs

/-- Whether the first character list occurs contiguously in the second. -/
def charsInfix (needle : List Char) (hay : List Char) : Bool :=
  charsPrefix needle hay ||
    match hay with
    | [] => false
    | _ :: rest => charsInfix needle rest

/-- Python `needle in hay` on strings: substring test (empty needle matches). -/
def pyInStr (needle hay : String) : Bool :=
  charsInfix needle.data hay.data

example : pyInStr "<" "<GATEWAY_ID>" = true := rfl
example : pyInStr "<" "gw-123" = false := rfl
example : pyInStr "" "anything" = true := rfl
example : pyInStr "already exists" "Target already exists somewhere" = true := rfl

/-- Python truthiness of a JSON value. -/
def pyTruthy : JVal → Bool
  | .null => false
  | .bool b => b
  | .num n => n != 0
  | .str s => s != ""
  | .arr xs => !xs.isEmpty
  | .obj fs => !fs.isEmpty

/-- Truthiness of a `dict.get` result (`none` is Python `None`, falsy). -/
def pyTruthyOpt : Option JVal → Bool
  | none => false
  | some v => pyTruthy v

/-- Python `d.get(k)`: `AttributeError` when the receiver is not a dict,
`None` (here `none`) when the key is missing. -/
def objGet (v : JVal) (k : String) : Except PyExc (Option JVal) :=
  match v with
  | .obj fields => .ok ((fields.find? (fun kv => kv.1 = k)).map (fun kv => kv.2))
  | _ => .error pyAttributeError

/-- Python `d.get(k, default)`. -/
def objGetD (v : JVal) (k : String) (d : JVal) : Except PyExc JVal :=
  match v with
  | .obj fields => .ok (((fields.find? (fun kv => kv.1 = k)).map (fun kv => kv.2)).getD d)
  | _ => .error pyAttributeError

/-- Python `needle in v` for a string needle: substring test on strings,
`==`-membership on lists, key membership on dicts, `TypeError` otherwise. -/
def pyContains (needle : String) : JVal → Except PyExc Bool
  | .str s => .ok (pyInStr needle s)
  | .arr xs => .ok (xs.any fun x => match x with | .str s => s = needle | _ => false)
  | .obj fs => .ok (fs.any fun kv => kv.1 = needle)
  | _ => .error pyTypeError

/-- The state of the local `gateway_config.json` file as seen by
`load_existing_config`: missing, unreadable (`IOError` on open/read),
holding bytes that are not valid UTF-8 (the text-mode read inside
`json.load` raises `UnicodeDecodeError`), undecodable as JSON
(`json.JSONDecodeError`), or parsed JSON content. -/
inductive FileState where
  | absent : FileState
  | ioError : FileState
  | badUtf8 : FileState
  | decodeError : FileState
  | content (v : JVal) : FileState

/-- Embedding of `load_existing_config` (setup-gateway.py lines 85-101).
`IOError` and `JSONDecodeError` are caught and collapse to `none`; the
`UnicodeDecodeError` raised by the read inside `json.load` on non-UTF-8
bytes (a subclass of neither caught class), and any exception thrown by
the dictionary accesses or the `in` test, propagate — exactly as in the
source, whose `except` clause lists only those two exception classes. -/
def load_existing_config (fs : FileState) : Except PyExc (Option JVal) :=
  match fs with
  | .absent => .ok none
  | .ioError => .ok none
  | .badUtf8 => .error pyUnicodeDecodeError
  | .decodeError => .ok none
  | .content config => do
    let gid ← objGet config "gateway_id"
    if pyTruthyOpt gid then
      let gid2 ← objGetD config "gateway_id" (.str "<")
      let hasMarker ← pyContains "<" gid2
      if !hasMarker then
        .ok (some config)
      else
        .ok none
    else
      .ok none

example : load_existing_config .absent = .ok none := rfl

example : load_existing_config (.content (.obj [("gateway_id", .str "gw-123")])) =
    .ok (some (.obj [("gateway_id", .str "gw-123")])) := rfl

example : load_existing_config (.content (.obj [("gateway_id", .str "<GATEWAY_ID>")])) =
    .ok none := rfl

example : load_existing_config (.content (.obj [("gateway_id", .str "")])) =
    .ok none := rfl

example : load_existing_config (.content (.arr [])) = .error pyAttributeError := rfl

example : load_existing_config .badUtf8 = .error pyUnicodeDecodeError := rfl

example : load_existing_config (.content (.obj [("gateway_id", .bool true)])) =
    .error pyTypeError := rfl

/-! ## The remote world and the effect monad -/

/-- A Lambda function resource, as far as the script observes it. -/
structure LambdaR where
  functionName : String
  functionArn : String
  deriving DecidableEq, Repr

/-- A gateway resource as returned by `get_gateway` / listed by
`list_gateways`. -/
structure GatewayR where
  gatewayId : String
  name : String
  status : String
  gatewayArn : String
  gatewayUrl : String
  deriving DecidableEq, Repr

/-- A gateway target as listed by `list_gateway_targets`. -/
structure TargetR where
  targetId : String
  name : String
  deriving DecidableEq, Repr

/-- One remote interaction of the script, in call order. -/
inductive Event where
  | callUpdateFunctionCode (functionName : String)
  | callWaiterFunctionUpdated (functionName : String)
  | callGetFunction (functionName : String)
  | callCreateRole (roleName : String)
  | callAttachRolePolicy (roleName : String)
  | sleep (seconds : Nat)
  | callCreateFunction (functionName : String)
  | callWaiterFunctionActive (functionName : String)
  | callGetGateway
  | callListGateways
  | callListGatewayTargets (gatewayId : String)
  | callCreateOauthAuthorizer (name : String)
  | callCreateMcpGateway (name : String)
  | callCreateMcpGatewayTarget (name : String)
  | writeConfigFile
  deriving DecidableEq, Repr

/-- The resource-creating remote calls, used to state the claims about
"creation calls". -/
inductive CreateCall where
  | createRole
  | createFunction
  | createOauthAuthorizer
  | createMcpGateway
  | createMcpGatewayTarget
  deriving DecidableEq, Repr

/-- The creation calls of a trace, in order. -/
def creationCalls (tr : List Event) : List CreateCall :=
  tr.filterMap fun e =>
    match e with
    | .callCreateRole _ => some .createRole
    | .callCreateFunction _ => some .createFunction
    | .callCreateOauthAuthorizer _ => some .createOauthAuthorizer
    | .callCreateMcpGateway _ => some .createMcpGateway
    | .callCreateMcpGatewayTarget _ => some .createMcpGatewayTarget
    | _ => none

/-- The four resource-level creation calls (the execution role is part of the
compute-function step). -/
def resourceCreationCalls (tr : List Event) : List CreateCall :=
  (creationCalls tr).filter fun c => c != .createRole

/-- The environment a run executes against: the local config file, the remote
resource inventory, the attributes fresh resources receive on creation, and
optional injected faults for each fallible remote call (`none` means the call
behaves according to the resource inventory). -/
structure World where
  fileState : FileState
  defaultRegion : String
  accountId : String
  lambdas : List LambdaR
  roles : List String
  gateways : List GatewayR
  targets : List (String × TargetR)
  authorizers : List String
  freshLambdaArn : String
  freshGatewayId : String
  freshGatewayArn : String
  freshGatewayUrl : String
  freshTargetId : String
  freshClientInfo : JVal
  freshAuthorizerConfig : JVal
  targetRespHasArn : Bool
  updateFunctionInject : Option PyExc
  createRoleInject : Option PyExc
  createFunctionInject : Option PyExc
  getGatewayInject : Option PyExc
  listGatewaysInject : Option PyExc
  listTargetsInject : Option PyExc
  createOauthInject : Option PyExc
  createGatewayInject : Option PyExc
  createTargetInject : Option PyExc

/-- The targets attached to one gateway. -/
def World.targetsOf (w : World) (gid : String) : List TargetR :=
  w.targets.filterMap fun p => if p.1 = gid then some p.2 else none

/-- State-and-error monad of a run: result, final world, emitted events. -/
def SM (α : Type) : Type := World → Except PyExc α × World × List Event

instance : Monad SM where
  pure a := fun w => (.ok a, w, [])
  bind x f := fun w =>
    match x w with
    | (.error e, w1, tr) => (.error e, w1, tr)
    | (.ok a, w1, tr) =>
      match f a w1 with
      | (r, w2, tr2) => (r, w2, tr ++ tr2)

def SM.throw {α : Type} (e : PyExc) : SM α := fun w => (.error e, w, [])

def SM.emit (ev : Event) : SM Unit := fun w => (.ok (), w, [ev])

def SM.getWorld : SM World := fun w => (.ok w, w, [])

def SM.setWorld (w : World) : SM Unit := fun _ => (.ok (), w, [])

def SM.liftE {α : Type} (x : Except PyExc α) : SM α := fun w => (x, w, [])

/-- Result component of a run. -/
def runResult {α : Type} (o : Except PyExc α × World × List Event) : Except PyExc α := o.1

/-- Final-world component of a run. -/
def runWorld {α : Type} (o : Except PyExc α × World × List Event) : World := o.2.1

/-- Trace component of a run. -/
def runTrace {α : Type} (o : Except PyExc α × World × List Event) : List Event := o.2.2

/-! ## Remote call semantics

Each remote call consults the injected fault first; otherwise it acts on the
resource inventory.  Mutating calls append the created resource so later
probes observe it. -/

/-- `lambda_client.update_function_code`: in-place code mutation; raises the
not-found error when the function does not exist. -/
def callUpdateFunctionCode (fn : String) : SM Unit := fun w =>
  ( match w.updateFunctionInject with
    | some e => .error e
    | none =>
      match w.lambdas.find? (fun L => L.functionName = fn) with
      | some _ => .ok ()
      | none => .error pyResourceNotFound,
    w, [Event.callUpdateFunctionCode fn])

/-- `lambda_client.get_function`, returning `Configuration.FunctionArn`. -/
def callGetFunction (fn : String) : SM String := fun w =>
  ( match w.lambdas.find? (fun L => L.functionName = fn) with
    | some L => .ok L.functionArn
    | none => .error pyResourceNotFound,
    w, [Event.callGetFunction fn])

/-- `iam_client.create_role`: raises `EntityAlreadyExistsException` when the
role name is taken. -/
def callCreateRole (roleName : String) : SM Unit := fun w =>
  match w.createRoleInject with
  | some e => (.error e, w, [Event.callCreateRole roleName])
  | none =>
    if w.roles.contains roleName then
      (.error pyEntityAlreadyExists, w, [Event.callCreateRole roleName])
    else
      (.ok (), { w with roles := roleName :: w.roles }, [Event.callCreateRole roleName])

/-- `iam_client.attach_role_policy`. -/
def callAttachRolePolicy (roleName : String) : SM Unit := fun w =>
  (.ok (), w, [Event.callAttachRolePolicy roleName])

/-- `lambda_client.create_function`, returning the new `FunctionArn`. -/
def callCreateFunction (fn : String) : SM String := fun w =>
  match w.createFunctionInject with
  | some e => (.error e, w, [Event.callCreateFunction fn])
  | none =>
    (.ok w.freshLambdaArn,
     { w with lambdas := w.lambdas ++ [⟨fn, w.freshLambdaArn⟩] },
     [Event.callCreateFunction fn])

/-- `boto_client.get_gateway(gatewayIdentifier=gid)`.  A non-string
identifier fails parameter validation; an unknown id raises not-found. -/
def callGetGateway (gid : JVal) : SM GatewayR := fun w =>
  ( match w.getGatewayInject with
    | some e => .error e
    | none =>
      match gid with
      | .str s =>
        match w.gateways.find? (fun g => g.gatewayId = s) with
        | some g => .ok g
        | none => .error ⟨"ResourceNotFoundException", "Gateway not found"⟩
      | _ => .error pyParamValidation,
    w, [Event.callGetGateway])

/-- `boto_client.list_gateways`. -/
def callListGateways : SM (List GatewayR) := fun w =>
  ( match w.listGatewaysInject with
    | some e => .error e
    | none => .ok w.gateways,
    w, [Event.callListGateways])

/-- `boto_client.list_gateway_targets(gatewayIdentifier=gid)`. -/
def callListGatewayTargets (gid : String) : SM (List TargetR) := fun w =>
  ( match w.listTargetsInject with
    | some e => .error e
    | none => .ok (w.targetsOf gid),
    w, [Event.callListGatewayTargets gid])

/-- The response of `client.create_oauth_authorizer_with_cognito`: the client
credentials plus the authorizer configuration block. -/
structure CognitoResp where
  client_info : JVal
  authorizer_config : JVal

/-- `client.create_oauth_authorizer_with_cognito`. -/
def callCreateOauthAuthorizer (name : String) : SM CognitoResp := fun w =>
  match w.createOauthInject with
  | some e => (.error e, w, [Event.callCreateOauthAuthorizer name])
  | none =>
    (.ok ⟨w.freshClientInfo, w.freshAuthorizerConfig⟩,
     { w with authorizers := w.authorizers ++ [name] },
     [Event.callCreateOauthAuthorizer name])

/-- `client.create_mcp_gateway`: creates a ready gateway with the fresh
attributes and returns it. -/
def callCreateMcpGateway (name : String) (roleArn : Option String)
    (authorizerConfig : JVal) : SM GatewayR := fun w =>
  match w.createGatewayInject with
  | some e => (.error e, w, [Event.callCreateMcpGateway name])
  | none =>
    (.ok ⟨w.freshGatewayId, name, "READY", w.freshGatewayArn, w.freshGatewayUrl⟩,
     { w with gateways :=
        w.gateways ++ [⟨w.freshGatewayId, name, "READY", w.freshGatewayArn, w.freshGatewayUrl⟩] },
     [Event.callCreateMcpGateway name])

/-- The part of a `create_mcp_gateway_target` response (or of the dictionary
the script substitutes for it) that the script reads: `gatewayArn`. -/
structure TargetResult where
  gatewayArn : Option String

/-- `client.create_mcp_gateway_target`: conflicts when a target of the same
name already exists on the gateway. -/
def callCreateMcpGatewayTarget (g : GatewayR) (name : String) : SM TargetResult := fun w =>
  match w.createTargetInject with
  | some e => (.error e, w, [Event.callCreateMcpGatewayTarget name])
  | none =>
    if ((w.targetsOf g.gatewayId).find? (fun t => t.name = name)).isSome then
      (.error pyConflict, w, [Event.callCreateMcpGatewayTarget name])
    else
      (.ok ⟨if w.targetRespHasArn then some g.gatewayArn else none⟩,
       { w with targets := w.targets ++ [(g.gatewayId, ⟨w.freshTargetId, name⟩)] },
       [Event.callCreateMcpGatewayTarget name])

/-- Writing `gateway_config.json` (lines 407-408). -/
def writeConfigFile (v : JVal) : SM Unit := fun w =>
  (.ok (), { w with fileState := .content v }, [Event.writeConfigFile])

/-- Reading `gateway_config.json` through `load_existing_config`. -/
def callLoadExistingConfig : SM (Option JVal) := fun w =>
  (load_existing_config w.fileState, w, [])

/-- Embedding of `get_default_region` (lines 256-259): the ambient session /
environment default region of the world. -/
def callGetDefaultRegion : SM String := fun w =>
  (.ok w.defaultRegion, w, [])

/-- Python `try ... except Exception` that swallows every exception and
produces `fallback` instead; state changes made before the exception stay. -/
def SM.tryCatchAll {α : Type} (x : SM α) (fallback : α) : SM α := fun w =>
  match x w with
  | (.error _, w1, tr) => (.ok fallback, w1, tr)
  | ok => ok

/-- Python `try ... except SomeClass`: `handler e = some h` means the clause
catches `e` and continues with `h`; `none` re-raises. -/
def SM.catchExc {α : Type} (x : SM α) (handler : PyExc → Option (SM α)) : SM α := fun w =>
  match x w with
  | (.error e, w1, tr) =>
    (match handler e with
     | some h =>
       match h w1 with
       | (r, w2, tr2) => (r, w2, tr ++ tr2)
     | none => (.error e, w1, tr))
  | ok => ok

/-- Python truthiness of an optional string argument (`None` and `""` are
falsy). -/
def pyTruthyStrOpt : Option String → Bool
  | none => false
  | some s => s != ""

/-- A `dict.get` result as a Python value (`None` becomes `null`). -/
def optJVal (o : Option JVal) : JVal := o.getD .null

/-! ## Embeddings of the script's functions -/

/-- The `for gw in response.get("items", [])` loop of `get_existing_gateway`
(lines 123-130): first exact-name match with ready status is re-fetched by id
and returned. -/
def gatewayNameScan (gateway_name : String) : List GatewayR → SM (Option GatewayR)
  | [] => pure none
  | gw :: rest =>
    if gw.name = gateway_name && (gw.status = "READY" || gw.status = "ACTIVE") then do
      let full_gw ← callGetGateway (.str gw.gatewayId)
      pure (some full_gw)
    else
      gatewayNameScan gateway_name rest

/-- The by-id `try` block of `get_existing_gateway` (lines 112-117): fetch
the gateway, return it only when its status is ready; any exception is
logged and swallowed, and a non-ready hit falls through, exactly as the
source's missing `return`. -/
def probeGatewayById (gateway_id : JVal) : SM (Option GatewayR) :=
  SM.tryCatchAll
    (do
      let gateway ← callGetGateway gateway_id
      if gateway.status = "READY" || gateway.status = "ACTIVE" then
        pure (some gateway)
      else
        pure none)
    none

/-- The by-name `try` block of `get_existing_gateway` (lines 121-132): list
all gateways and scan for an exact ready name match; any exception is
logged and swallowed. -/
def probeGatewayByName (gateway_name : String) : SM (Option GatewayR) :=
  SM.tryCatchAll
    (do
      let items ← callListGateways
      gatewayNameScan gateway_name items)
    none

/-- Embedding of `get_existing_gateway` (lines 104-134). -/
def get_existing_gateway (region : String) (gateway_id : Option JVal)
    (gateway_name : Option String) : SM (Option GatewayR) := do
  let fromId ←
    (if pyTruthyOpt gateway_id then
      probeGatewayById (optJVal gateway_id)
    else
      pure none)
  match fromId with
  | some g => pure (some g)
  | none =>
    if pyTruthyStrOpt gateway_name then
      probeGatewayByName (gateway_name.getD "")
    else
      pure none

/-- Embedding of `get_existing_target` (lines 137-152): list the gateway's
targets and return the first with the given name; any listing error is
swallowed into `none`. -/
def get_existing_target (region : String) (gateway_id : String)
    (target_name : String) : SM (Option TargetR) :=
  SM.tryCatchAll
    (do
      let targets ← callListGatewayTargets gateway_id
      pure (targets.find? (fun t => t.name = target_name)))
    none

/-- Embedding of `create_refund_lambda` (lines 155-253).  The update attempt
comes first; only its `ResourceNotFoundException` takes the creation path,
where `EntityAlreadyExistsException` from role creation is tolerated (and the
10 s propagation sleep is skipped), and the function is created and awaited.
The zip packaging (lines 176-184) and temp-file cleanup have no remote
effect and are omitted. -/
def create_refund_lambda (region : String) (function_name : String) : SM String := do
  let w ← SM.getWorld
  let account_id := w.accountId
  SM.catchExc
    (do
      callUpdateFunctionCode function_name
      SM.emit (Event.callWaiterFunctionUpdated function_name)
      callGetFunction function_name)
    (fun exc =>
      if exc.typeName = "ResourceNotFoundException" then
        some (do
          let role_name := function_name ++ "-execution-role"
          let role_arn := "arn:aws:iam::" ++ account_id ++ ":role/" ++ role_name
          SM.catchExc
            (do
              callCreateRole role_name
              callAttachRolePolicy role_name
              SM.emit (Event.sleep 10))
            (fun exc2 =>
              if exc2.typeName = "EntityAlreadyExistsException" then
                some (pure ())
              else
                none)
          let arn ← callCreateFunction function_name
          SM.emit (Event.callWaiterFunctionActive function_name)
          pure arn)
      else
        none)

/-- The configuration record assembled at lines 398-405; exactly the six
fields of the written JSON object. -/
structure ConfigOut where
  gateway_url : String
  gateway_id : String
  gateway_arn : String
  region : String
  client_info : JVal
  lambda_arn : JVal

/-- The JSON object `json.dump` writes for a configuration record, with the
source's key order. -/
def ConfigOut.toJVal (c : ConfigOut) : JVal :=
  .obj [("gateway_url", .str c.gateway_url), ("gateway_id", .str c.gateway_id),
        ("gateway_arn", .str c.gateway_arn), ("region", .str c.region),
        ("client_info", c.client_info), ("lambda_arn", c.lambda_arn)]

/-- Python `a or b` where `a` is a maybe-missing string field (`None` and
`""` select `b`). -/
def pyOrStr (a : Option String) (b : String) : String :=
  match a with
  | none => b
  | some s => if s = "" then b else s

/-- Embedding of `setup_gateway` (lines 262-420). -/
def setup_gateway (regionArg : Option String) (role_arn : Option String) :
    SM ConfigOut := do
  -- lines 271-272: `if not region: region = get_default_region()`
  let region ←
    (match regionArg with
     | none => callGetDefaultRegion
     | some r => if r = "" then callGetDefaultRegion else pure r)
  let gateway_name := "TestGWforPolicyEngine"
  let target_name := "RefundToolTarget"
  let lambda_function_name := "RefundLambda"
  -- lines 287-311: load the snapshot and probe the recorded gateway by id
  let existing_config ← callLoadExistingConfig
  let (gateway1, cognito1, lambda_arn1) ←
    (match existing_config with
     | none => pure ((none : Option GatewayR), (none : Option CognitoResp), JVal.null)
     | some cfg =>
       if pyTruthy cfg then do
         let gidOpt ← SM.liftE (objGet cfg "gateway_id")
         let gateway ← get_existing_gateway region (some (optJVal gidOpt)) none
         match gateway with
         | some g => do
           let ciOpt ← SM.liftE (objGet cfg "client_info")
           let cognito :=
             if pyTruthyOpt ciOpt then some (CognitoResp.mk (optJVal ciOpt) JVal.null)
             else none
           let laOpt ← SM.liftE (objGet cfg "lambda_arn")
           pure (some g, cognito, optJVal laOpt)
         | none => pure (none, none, JVal.null)
       else
         pure (none, none, JVal.null))
  -- lines 313-318: if no gateway yet, look one up by name
  let gateway2 ←
    (match gateway1 with
     | some g => pure (some g)
     | none => get_existing_gateway region none (some gateway_name))
  -- lines 320-328: create or reuse the Lambda function
  let lambda_arn ←
    (if pyTruthy lambda_arn1 then
      pure lambda_arn1
    else do
      let arn ← create_refund_lambda region lambda_function_name
      pure (JVal.str arn))
  -- lines 330-336: create the OAuth authorizer unless client info was reused
  let cognito_response ←
    (match cognito1 with
     | some c => pure c
     | none => callCreateOauthAuthorizer "TestGateway")
  -- lines 338-353: create the gateway unless one was found
  let gateway ←
    (match gateway2 with
     | some g => pure g
     | none =>
       callCreateMcpGateway gateway_name role_arn cognito_response.authorizer_config)
  -- lines 355-395: probe for the target, then create with conflict tolerance
  let gateway_id := gateway.gatewayId
  let existing_target ← get_existing_target region gateway_id target_name
  let lambda_target ←
    (match existing_target with
     | some t => pure (TargetResult.mk (some gateway.gatewayArn))
     | none =>
       SM.catchExc
         (callCreateMcpGatewayTarget gateway target_name)
         (fun exc =>
           if pyInStr "ConflictException" exc.typeName
               || pyInStr "already exists" exc.msg then
             some (pure (TargetResult.mk (some gateway.gatewayArn)))
           else
             none))
  -- lines 397-408: assemble and persist the configuration
  let config : ConfigOut :=
    { gateway_url := gateway.gatewayUrl
      gateway_id := gateway.gatewayId
      gateway_arn := pyOrStr lambda_target.gatewayArn gateway.gatewayArn
      region := region
      client_info := cognito_response.client_info
      lambda_arn := lambda_arn }
  writeConfigFile config.toJVal
  pure config

/-! ## Unfolding helpers for the monad -/

theorem SM.run_bind {α β : Type} (x : SM α) (f : α → SM β) (w : World) :
    (x >>= f) w =
      match x w with
      | (.error e, w1, tr) => (.error e, w1, tr)
      | (.ok a, w1, tr) =>
        match f a w1 with
        | (r, w2, tr2) => (r, w2, tr ++ tr2) := rfl

theorem SM.run_pure {α : Type} (a : α) (w : World) :
    (pure a : SM α) w = (.ok a, w, []) := rfl

/-! Constructor-level rewrite rules, so that symbolic truthiness hypotheses
such as `pyTruthy ci = true` keep matching during simplification. -/

@[simp] theorem pyTruthyOpt_none : pyTruthyOpt none = false := rfl

@[simp] theorem pyTruthyOpt_some (v : JVal) : pyTruthyOpt (some v) = pyTruthy v := rfl

@[simp] theorem pyTruthy_null : pyTruthy .null = false := rfl

@[simp] theorem pyTruthy_bool (b : Bool) : pyTruthy (.bool b) = b := rfl

@[simp] theorem pyTruthy_num (n : Int) : pyTruthy (.num n) = (n != 0) := rfl

@[simp] theorem pyTruthy_str (s : String) : pyTruthy (.str s) = (s != "") := rfl

@[simp] theorem pyTruthy_arr (xs : List JVal) : pyTruthy (.arr xs) = !xs.isEmpty := rfl

@[simp] theorem pyTruthy_obj (fs : List (String × JVal)) :
    pyTruthy (.obj fs) = !fs.isEmpty := rfl

@[simp] theorem pyTruthyStrOpt_none : pyTruthyStrOpt none = false := rfl

@[simp] theorem pyTruthyStrOpt_some (s : String) : pyTruthyStrOpt (some s) = (s != "") := rfl

@[simp] theorem optJVal_none : optJVal none = .null := rfl

@[simp] theorem optJVal_some (v : JVal) : optJVal (some v) = v := rfl

@[simp] theorem pyOrStr_none (b : String) : pyOrStr none b = b := rfl

@[simp] theorem pyOrStr_self (b : String) : pyOrStr (some b) b = b := by
  simp [pyOrStr]

theorem pyOrStr_some (s b : String) : pyOrStr (some s) b = if s = "" then b else s := rfl

/-- Whether an `Except` result is a success. -/
def isOkB {α : Type} : Except PyExc α → Bool
  | .ok _ => true
  | .error _ => false

/-! ## Concrete environments used to instantiate the claims -/

/-- An empty environment: no snapshot file, no remote resources, no injected
faults, and realistic fresh-resource attributes. -/
def baseWorld : World :=
  { fileState := .absent
    defaultRegion := "us-east-1"
    accountId := "123456789012"
    lambdas := []
    roles := []
    gateways := []
    targets := []
    authorizers := []
    freshLambdaArn := "arn:aws:lambda:us-east-1:123456789012:function:RefundLambda"
    freshGatewayId := "gw-abc123"
    freshGatewayArn := "arn:aws:bedrock-agentcore:us-east-1:123456789012:gateway/gw-abc123"
    freshGatewayUrl := "https://gw-abc123.gateway.example.com/mcp"
    freshTargetId := "tg-001"
    freshClientInfo := .obj [("client_id", .str "cid-1"), ("client_secret", .str "sec-1")]
    freshAuthorizerConfig := .obj [("customJWTAuthorizer", .str "cfg-1")]
    targetRespHasArn := true
    updateFunctionInject := none
    createRoleInject := none
    createFunctionInject := none
    getGatewayInject := none
    listGatewaysInject := none
    listTargetsInject := none
    createOauthInject := none
    createGatewayInject := none
    createTargetInject := none }

/-- An environment in which all four resources (compute function, authorizer,
gateway, target) already exist but no snapshot file is present. -/
def allExistingWorld : World :=
  { baseWorld with
    lambdas := [⟨"RefundLambda", "arn:aws:lambda:us-east-1:123456789012:function:RefundLambda"⟩]
    roles := ["RefundLambda-execution-role"]
    gateways := [⟨"gw-exist", "TestGWforPolicyEngine", "READY",
      "arn:aws:bedrock-agentcore:us-east-1:123456789012:gateway/gw-exist",
      "https://gw-exist.gateway.example.com/mcp"⟩]
    targets := [("gw-exist", ⟨"tg-exist", "RefundToolTarget"⟩)]
    authorizers := ["TestGateway"] }

/-- A family of environments with no snapshot in which the compute function,
the gateway, and the target each pre-exist or not. -/
def partialWorld (f g t : Bool) : World :=
  { baseWorld with
    lambdas :=
      if f then [⟨"RefundLambda", "arn:aws:lambda:us-east-1:123456789012:function:RefundOld"⟩]
      else []
    gateways :=
      if g then [⟨"gw-exist", "TestGWforPolicyEngine", "READY",
        "arn:aws:bedrock-agentcore:us-east-1:123456789012:gateway/gw-exist",
        "https://gw-exist.gateway.example.com/mcp"⟩]
      else []
    targets := if t && g then [("gw-exist", ⟨"tg-exist", "RefundToolTarget"⟩)] else [] }

/-! ## C4 — behaviour of `load_existing_config` over all file states -/

/-- C4 counterexample: `load_existing_config` is claimed never to raise, but
on a file whose bytes are not valid UTF-8 the read inside `json.load` raises
`UnicodeDecodeError` (a subclass of neither caught class), on a file whose
contents are valid JSON that is not an object (here `[]`) the attribute
access `config.get` raises `AttributeError`, and on an object whose
`gateway_id` is a truthy non-container (here `true`) the containment test
`"<" not in ...` raises `TypeError`; none of these exception classes is
caught by the `except (json.JSONDecodeError, IOError)` clause. -/
theorem c4_load_counterexample :
    load_existing_config .badUtf8 = .error pyUnicodeDecodeError ∧
    load_existing_config (.content (.arr [])) = .error pyAttributeError ∧
    load_existing_config (.content (.obj [("gateway_id", .bool true)])) =
      .error pyTypeError :=
  ⟨rfl, rfl, rfl⟩

/-- C4 (amended): across every file state, `load_existing_config` returns a
parsed config or `none` and never raises provided the file bytes decode as
UTF-8 and the parsed contents, if any, form a JSON object; a non-UTF-8 file
propagates the `UnicodeDecodeError` of the read inside `json.load`, and a
truthy non-container `gateway_id` propagates the `TypeError` of the
containment test, since the `except` clause catches only `JSONDecodeError`
and `IOError`: absent, unreadable and JSON-undecodable files give `none`; a
missing, falsy, or `"<"`-marked `gateway_id` gives `none`; a truthy
marker-free `gateway_id` returns the config unchanged. -/
theorem c4_load_gate :
    (load_existing_config .absent = .ok none ∧
     load_existing_config .ioError = .ok none ∧
     load_existing_config .decodeError = .ok none) ∧
    load_existing_config .badUtf8 = .error pyUnicodeDecodeError ∧
    (∀ fields : List (String × JVal),
      fields.find? (fun kv => kv.1 = "gateway_id") = none →
      load_existing_config (.content (.obj fields)) = .ok none) ∧
    (∀ (fields : List (String × JVal)) (kv : String × JVal),
      fields.find? (fun kv => kv.1 = "gateway_id") = some kv →
      pyTruthy kv.2 = false →
      load_existing_config (.content (.obj fields)) = .ok none) ∧
    (∀ (fields : List (String × JVal)) (kv : String × JVal),
      fields.find? (fun kv => kv.1 = "gateway_id") = some kv →
      pyTruthy kv.2 = true →
      pyContains "<" kv.2 = .ok true →
      load_existing_config (.content (.obj fields)) = .ok none) ∧
    (∀ (fields : List (String × JVal)) (kv : String × JVal),
      fields.find? (fun kv => kv.1 = "gateway_id") = some kv →
      pyTruthy kv.2 = true →
      pyContains "<" kv.2 = .ok false →
      load_existing_config (.content (.obj fields)) = .ok (some (.obj fields))) ∧
    (∀ (fields : List (String × JVal)) (kv : String × JVal) (e : PyExc),
      fields.find? (fun kv => kv.1 = "gateway_id") = some kv →
      pyTruthy kv.2 = true →
      pyContains "<" kv.2 = .error e →
      load_existing_config (.content (.obj fields)) = .error e) := by
  refine ⟨⟨rfl, rfl, rfl⟩, rfl, ?_, ?_, ?_, ?_, ?_⟩
  · intro fields hfind
    simp [load_existing_config, Bind.bind, Except.bind, objGet, objGetD, pyTruthyOpt, hfind]
  · intro fields kv hfind htr
    simp [load_existing_config, Bind.bind, Except.bind, objGet, objGetD, pyTruthyOpt, hfind, htr]
  · intro fields kv hfind htr hc
    simp [load_existing_config, Bind.bind, Except.bind, objGet, objGetD, pyTruthyOpt, hfind, htr, hc]
  · intro fields kv hfind htr hc
    simp [load_existing_config, Bind.bind, Except.bind, objGet, objGetD, pyTruthyOpt, hfind, htr, hc]
  · intro fields kv e hfind htr hc
    simp [load_existing_config, Bind.bind, Except.bind, objGet, objGetD, pyTruthyOpt, hfind, htr, hc]

/-- Witness for C4 (amended), at a config whose `gateway_id` is valid. -/
theorem c4_load_gate_witness :
    load_existing_config (.content (.obj [("gateway_id", .str "gw-9"), ("extra", .null)])) =
      .ok (some (.obj [("gateway_id", .str "gw-9"), ("extra", .null)])) :=
  c4_load_gate.2.2.2.2.2.1 [("gateway_id", .str "gw-9"), ("extra", .null)]
    ("gateway_id", .str "gw-9") rfl rfl rfl

/-! ## C8 — empty environment: creation order and fully populated snapshot -/

/-- C8: from an empty environment the run succeeds, issues the four
resource-level creation calls in the order compute function, OAuth
authorizer, gateway, gateway target (with the execution role created as part
of the compute-function step), and writes a config whose gateway, lambda and
authorizer identifiers are populated and free of placeholder markers. -/
theorem c8_empty_env_order :
    runResult (setup_gateway none none baseWorld) =
      .ok { gateway_url := "https://gw-abc123.gateway.example.com/mcp"
            gateway_id := "gw-abc123"
            gateway_arn := "arn:aws:bedrock-agentcore:us-east-1:123456789012:gateway/gw-abc123"
            region := "us-east-1"
            client_info := .obj [("client_id", .str "cid-1"), ("client_secret", .str "sec-1")]
            lambda_arn := .str "arn:aws:lambda:us-east-1:123456789012:function:RefundLambda" } ∧
    resourceCreationCalls (runTrace (setup_gateway none none baseWorld)) =
      [CreateCall.createFunction, CreateCall.createOauthAuthorizer,
       CreateCall.createMcpGateway, CreateCall.createMcpGatewayTarget] ∧
    creationCalls (runTrace (setup_gateway none none baseWorld)) =
      [CreateCall.createRole, CreateCall.createFunction, CreateCall.createOauthAuthorizer,
       CreateCall.createMcpGateway, CreateCall.createMcpGatewayTarget] ∧
    ("gw-abc123" ≠ "" ∧ pyInStr "<" "gw-abc123" = false) ∧
    ("arn:aws:lambda:us-east-1:123456789012:function:RefundLambda" ≠ "" ∧
      pyInStr "<" "arn:aws:lambda:us-east-1:123456789012:function:RefundLambda" = false) ∧
    pyTruthy (.obj [("client_id", .str "cid-1"), ("client_secret", .str "sec-1")]) = true := by
  exact ⟨rfl, by decide, by decide, by decide, by decide, rfl⟩

/-! ## C2 — convergence from partial pre-existing state -/

/-- C2 counterexample: with all four resources pre-existing and no snapshot,
the claim demands zero creation calls and untouched resources, but the run
still issues `create_oauth_authorizer_with_cognito` (client credentials
cannot be recovered without a snapshot) and mutates the pre-existing compute
function in place through `update_function_code`. -/
theorem c2_counterexample :
    creationCalls (runTrace (setup_gateway (some "us-east-1") none allExistingWorld)) =
      [CreateCall.createOauthAuthorizer] ∧
    Event.callUpdateFunctionCode "RefundLambda" ∈
      runTrace (setup_gateway (some "us-east-1") none allExistingWorld) ∧
    isOkB (runResult (setup_gateway (some "us-east-1") none allExistingWorld)) = true := by
  decide

/-- C2 (amended): for every subset of {compute function, gateway, target}
pre-existing (a target only together with its gateway) and no prior snapshot,
the run succeeds and issues creation calls for exactly the missing ones of
those three — plus the execution role whenever the function is missing, and
always a fresh OAuth authorizer since no snapshot carries client credentials.
A pre-existing gateway and target are left untouched, while a pre-existing
compute function is updated in place rather than left untouched. -/
theorem c2_convergence (f g t : Bool) (htg : t = true → g = true) :
    creationCalls (runTrace (setup_gateway (some "us-east-1") none (partialWorld f g t))) =
      ((if f then [] else [CreateCall.createRole, CreateCall.createFunction]) ++
        [CreateCall.createOauthAuthorizer] ++
        (if g then [] else [CreateCall.createMcpGateway]) ++
        (if t then [] else [CreateCall.createMcpGatewayTarget])) ∧
    isOkB (runResult (setup_gateway (some "us-east-1") none (partialWorld f g t))) = true ∧
    (f = true →
      Event.callUpdateFunctionCode "RefundLambda" ∈
        runTrace (setup_gateway (some "us-east-1") none (partialWorld f g t))) ∧
    (g = true →
      (runWorld (setup_gateway (some "us-east-1") none (partialWorld f g t))).gateways =
        (partialWorld f g t).gateways) ∧
    (t = true →
      (runWorld (setup_gateway (some "us-east-1") none (partialWorld f g t))).targets =
        (partialWorld f g t).targets) := by
  cases f <;> cases g <;> cases t
  · decide
  · exact absurd (htg rfl) (by decide)
  · decide
  · decide
  · decide
  · exact absurd (htg rfl) (by decide)
  · decide
  · decide

/-- Witness for C2 (amended): a missing gateway and target behind an existing
function are created, in order, after the always-fresh authorizer. -/
theorem c2_convergence_witness :
    creationCalls (runTrace (setup_gateway (some "us-east-1") none (partialWorld true false false))) =
      [CreateCall.createOauthAuthorizer, CreateCall.createMcpGateway,
       CreateCall.createMcpGatewayTarget] ∧
    isOkB (runResult (setup_gateway (some "us-east-1") none (partialWorld true false false))) = true :=
  ⟨(c2_convergence true false false (fun h => absurd h (by decide))).1,
   (c2_convergence true false false (fun h => absurd h (by decide))).2.1⟩

/-! ## C7 — the gateway probe fails soft -/

/-- `find?` by a member's id under pairwise-distinct ids returns exactly that
member. -/
theorem find_id_of_mem_unique {l : List GatewayR} {gw : GatewayR} (hm : gw ∈ l)
    (hu : l.Pairwise (fun a b => a.gatewayId ≠ b.gatewayId)) :
    l.find? (fun x => x.gatewayId = gw.gatewayId) = some gw := by
  induction l with
  | nil => cases hm
  | cons a l ih =>
    rcases List.mem_cons.mp hm with rfl | hm2
    · simp [List.find?]
    · have hne : a.gatewayId ≠ gw.gatewayId := (List.pairwise_cons.mp hu).1 gw hm2
      have hrec : l.find? (fun x => x.gatewayId = gw.gatewayId) = some gw :=
        ih hm2 (List.pairwise_cons.mp hu).2
      simp [List.find?, hne, hrec]

/-- The name-scan loop preserves the world, and returns a gateway only after
confirming a ready-status exact-name match in the listed items and
re-fetching it by id. -/
theorem gatewayNameScan_spec (name : String) (l : List GatewayR) (w : World) :
    runWorld (gatewayNameScan name l w) = w ∧
    (∀ g : GatewayR, runResult (gatewayNameScan name l w) = .ok (some g) →
      ∃ gw : GatewayR, gw ∈ l ∧ gw.name = name ∧
        (gw.status = "READY" ∨ gw.status = "ACTIVE") ∧
        w.getGatewayInject = none ∧
        w.gateways.find? (fun x => x.gatewayId = gw.gatewayId) = some g) := by
  induction l with
  | nil => exact ⟨rfl, fun g h => by simp [gatewayNameScan, runResult, SM.run_pure] at h⟩
  | cons gw rest ih =>
    cases hcond : (decide (gw.name = name) &&
        (decide (gw.status = "READY") || decide (gw.status = "ACTIVE"))) with
    | false =>
      constructor
      · rw [show gatewayNameScan name (gw :: rest) w = gatewayNameScan name rest w from by
          simp [gatewayNameScan, hcond]]
        exact ih.1
      · intro g hg
        rw [show gatewayNameScan name (gw :: rest) w = gatewayNameScan name rest w from by
          simp [gatewayNameScan, hcond]] at hg
        obtain ⟨gw2, hmem, hrest⟩ := ih.2 g hg
        exact ⟨gw2, List.mem_cons_of_mem _ hmem, hrest⟩
    | true =>
      have hname : gw.name = name :=
        of_decide_eq_true ((Bool.and_eq_true _ _).mp hcond).1
      have hstatus : gw.status = "READY" ∨ gw.status = "ACTIVE" := by
        rcases (Bool.or_eq_true _ _).mp ((Bool.and_eq_true _ _).mp hcond).2 with h | h
        · exact Or.inl (of_decide_eq_true h)
        · exact Or.inr (of_decide_eq_true h)
      cases hgi : w.getGatewayInject with
      | some e =>
        constructor
        · simp [gatewayNameScan, hcond, SM.run_bind, callGetGateway, hgi, runWorld]
        · intro g hg
          simp [gatewayNameScan, hcond, SM.run_bind, callGetGateway, hgi, runResult] at hg
      | none =>
        cases hfind : w.gateways.find? (fun x => x.gatewayId = gw.gatewayId) with
        | none =>
          constructor
          · simp [gatewayNameScan, hcond, SM.run_bind, SM.run_pure, callGetGateway, hgi,
              hfind, runWorld]
          · intro g hg
            simp [gatewayNameScan, hcond, SM.run_bind, SM.run_pure, callGetGateway, hgi,
              hfind, runResult] at hg
        | some full =>
          constructor
          · simp [gatewayNameScan, hcond, SM.run_bind, SM.run_pure, callGetGateway, hgi,
              hfind, runWorld]
          · intro g hg
            simp [gatewayNameScan, hcond, SM.run_bind, SM.run_pure, callGetGateway, hgi,
              hfind, runResult] at hg
            exact ⟨gw, List.mem_cons_self _ _, hname, hstatus, rfl, by rw [hfind, hg]⟩

/-- The by-id probe block: always returns (never raises), preserves the
world, and yields a gateway only with ready status, found in the inventory,
and only when no lookup fault was injected. -/
theorem probeGatewayById_spec (v : JVal) (w : World) :
    probeGatewayById v w = (.ok none, w, [Event.callGetGateway]) ∨
    ∃ g : GatewayR, probeGatewayById v w = (.ok (some g), w, [Event.callGetGateway]) ∧
      (g.status = "READY" ∨ g.status = "ACTIVE") ∧ g ∈ w.gateways ∧
      w.getGatewayInject = none := by
  cases hgi : w.getGatewayInject with
  | some e =>
    left
    simp [probeGatewayById, SM.tryCatchAll, SM.run_bind, SM.run_pure, callGetGateway, hgi]
  | none =>
    cases v with
    | str s =>
      cases hfind : w.gateways.find? (fun x => x.gatewayId = s) with
      | none =>
        left
        simp [probeGatewayById, SM.tryCatchAll, SM.run_bind, SM.run_pure, callGetGateway,
          hgi, hfind]
      | some g =>
        by_cases hst : (g.status = "READY" ∨ g.status = "ACTIVE")
        · right
          exact ⟨g, by simp [probeGatewayById, SM.tryCatchAll, SM.run_bind, SM.run_pure,
            callGetGateway, hgi, hfind, hst], hst, List.mem_of_find?_eq_some hfind, rfl⟩
        · left
          simp [probeGatewayById, SM.tryCatchAll, SM.run_bind, SM.run_pure, callGetGateway,
            hgi, hfind, hst]
    | null =>
      left
      simp [probeGatewayById, SM.tryCatchAll, SM.run_bind, SM.run_pure, callGetGateway, hgi]
    | bool b =>
      left
      simp [probeGatewayById, SM.tryCatchAll, SM.run_bind, SM.run_pure, callGetGateway, hgi]
    | num n =>
      left
      simp [probeGatewayById, SM.tryCatchAll, SM.run_bind, SM.run_pure, callGetGateway, hgi]
    | arr xs =>
      left
      simp [probeGatewayById, SM.tryCatchAll, SM.run_bind, SM.run_pure, callGetGateway, hgi]
    | obj fs =>
      left
      simp [probeGatewayById, SM.tryCatchAll, SM.run_bind, SM.run_pure, callGetGateway, hgi]

/-- The by-name probe block: always returns, preserves the world, and yields
a gateway only with ready status and membership, under distinct ids. -/
theorem probeGatewayByName_spec (name : String) (w : World)
    (huniq : w.gateways.Pairwise (fun a b => a.gatewayId ≠ b.gatewayId)) :
    (∃ tr, probeGatewayByName name w = (.ok none, w, tr)) ∨
    ∃ g tr, probeGatewayByName name w = (.ok (some g), w, tr) ∧
      (g.status = "READY" ∨ g.status = "ACTIVE") ∧ g ∈ w.gateways ∧
      w.listGatewaysInject = none := by
  cases hli : w.listGatewaysInject with
  | some e =>
    left
    exact ⟨[Event.callListGateways],
      by simp [probeGatewayByName, SM.tryCatchAll, SM.run_bind, callListGateways, hli]⟩
  | none =>
    rcases hscan : gatewayNameScan name w.gateways w with ⟨r, w2, tr⟩
    have hw2 : w2 = w := by
      have h := (gatewayNameScan_spec name w.gateways w).1
      rw [runWorld, hscan] at h
      exact h
    rw [hw2] at hscan
    cases r with
    | error e =>
      left
      exact ⟨Event.callListGateways :: tr,
        by simp [probeGatewayByName, SM.tryCatchAll, SM.run_bind, callListGateways, hli, hscan]⟩
    | ok o =>
      cases o with
      | none =>
        left
        exact ⟨Event.callListGateways :: tr,
          by simp [probeGatewayByName, SM.tryCatchAll, SM.run_bind, callListGateways, hli, hscan]⟩
      | some g =>
        right
        obtain ⟨gw, hmem, hname, hstatus, hgi0, hfind⟩ :=
          (gatewayNameScan_spec name w.gateways w).2 g (by rw [runResult, hscan])
        have hgg : g = gw := by
          have h2 := find_id_of_mem_unique hmem huniq
          rw [hfind] at h2
          exact Option.some.inj h2
        refine ⟨g, Event.callListGateways :: tr,
          by simp [probeGatewayByName, SM.tryCatchAll, SM.run_bind, callListGateways,
            hli, hscan], ?_, List.mem_of_find?_eq_some hfind, rfl⟩
        rw [hgg]
        exact hstatus

/-- The by-id probe with an injected lookup fault yields `none`. -/
theorem probeGatewayById_inject (v : JVal) (w : World) (e : PyExc)
    (hgi : w.getGatewayInject = some e) :
    probeGatewayById v w = (.ok none, w, [Event.callGetGateway]) := by
  simp [probeGatewayById, SM.tryCatchAll, SM.run_bind, SM.run_pure, callGetGateway, hgi]

/-- The by-name probe with an injected listing fault yields `none`. -/
theorem probeGatewayByName_inject (name : String) (w : World) (e : PyExc)
    (hli : w.listGatewaysInject = some e) :
    probeGatewayByName name w = (.ok none, w, [Event.callListGateways]) := by
  simp [probeGatewayByName, SM.tryCatchAll, SM.run_bind, callListGateways, hli]

/-- Characterization of `get_existing_gateway`: it never raises, preserves
the world, and yields only ready gateways from the inventory. -/
theorem get_existing_gateway_spec (region : String) (w : World) (gid : Option JVal)
    (gname : Option String)
    (huniq : w.gateways.Pairwise (fun a b => a.gatewayId ≠ b.gatewayId)) :
    (∃ tr, (get_existing_gateway region gid gname) w = (.ok none, w, tr)) ∨
      (∃ g tr, (get_existing_gateway region gid gname) w = (.ok (some g), w, tr) ∧
        (g.status = "READY" ∨ g.status = "ACTIVE") ∧ g ∈ w.gateways) := by
  cases hgt : pyTruthyOpt gid with
    | true =>
      rcases probeGatewayById_spec (optJVal gid) w with hid | ⟨g, hid, hst, hmem, hgi0⟩
      · cases hgn : pyTruthyStrOpt gname with
        | false =>
          left
          exact ⟨[Event.callGetGateway],
            by simp [get_existing_gateway, SM.run_bind, SM.run_pure, hgt, hid, hgn]⟩
        | true =>
          rcases probeGatewayByName_spec (gname.getD "") w huniq with
            ⟨tr, hn⟩ | ⟨g, tr, hn, hstg, hmemg, hli0⟩
          · left
            exact ⟨Event.callGetGateway :: tr,
              by simp [get_existing_gateway, SM.run_bind, SM.run_pure, hgt, hid, hgn, hn]⟩
          · right
            exact ⟨g, Event.callGetGateway :: tr,
              by simp [get_existing_gateway, SM.run_bind, SM.run_pure, hgt, hid, hgn, hn],
              hstg, hmemg⟩
      · right
        exact ⟨g, [Event.callGetGateway],
          by simp [get_existing_gateway, SM.run_bind, SM.run_pure, hgt, hid], hst, hmem⟩
    | false =>
      cases hgn : pyTruthyStrOpt gname with
      | false =>
        left
        exact ⟨[], by simp [get_existing_gateway, SM.run_bind, SM.run_pure, hgt, hgn]⟩
      | true =>
        rcases probeGatewayByName_spec (gname.getD "") w huniq with
          ⟨tr, hn⟩ | ⟨g, tr, hn, hstg, hmemg, hli0⟩
        · left
          exact ⟨tr, by simp [get_existing_gateway, SM.run_bind, SM.run_pure, hgt, hgn, hn]⟩
        · right
          exact ⟨g, tr,
            by simp [get_existing_gateway, SM.run_bind, SM.run_pure, hgt, hgn, hn],
            hstg, hmemg⟩

/-- C7: over every environment with distinct gateway ids and any argument
combination, `get_existing_gateway` never raises and never changes the
world; whenever it does return a gateway, that gateway comes from the
inventory with status in the ready set {READY, ACTIVE}; and when both the
by-id and the listing lookups fail, it returns `none` rather than
propagating either exception. -/
theorem c7_gateway_probe_fails_soft (region : String) (w : World) (gid : Option JVal)
    (gname : Option String)
    (huniq : w.gateways.Pairwise (fun a b => a.gatewayId ≠ b.gatewayId)) :
    (∃ o : Option GatewayR, runResult (get_existing_gateway region gid gname w) = .ok o) ∧
    runWorld (get_existing_gateway region gid gname w) = w ∧
    (∀ g : GatewayR, runResult (get_existing_gateway region gid gname w) = .ok (some g) →
      (g.status = "READY" ∨ g.status = "ACTIVE") ∧ g ∈ w.gateways) ∧
    (∀ e1 e2 : PyExc, w.getGatewayInject = some e1 → w.listGatewaysInject = some e2 →
      runResult (get_existing_gateway region gid gname w) = .ok none) := by
  have key := get_existing_gateway_spec region w gid gname huniq
  refine ⟨?_, ?_, ?_, ?_⟩
  · rcases key with ⟨tr, heq⟩ | ⟨g, tr, heq, _, _⟩
    · exact ⟨none, by rw [runResult, heq]⟩
    · exact ⟨some g, by rw [runResult, heq]⟩
  · rcases key with ⟨tr, heq⟩ | ⟨g, tr, heq, _, _⟩ <;> rw [runWorld, heq]
  · intro g hg
    rcases key with ⟨tr, heq⟩ | ⟨g2, tr, heq, hst, hmem⟩
    · rw [runResult, heq] at hg
      exact absurd hg (by simp)
    · rw [runResult, heq] at hg
      have hgg : g = g2 := (Option.some.inj (Except.ok.inj hg)).symm
      rw [hgg]
      exact ⟨hst, hmem⟩
  · intro e1 e2 hgi hli
    have hid := probeGatewayById_inject (optJVal gid) w e1 hgi
    have hn := probeGatewayByName_inject (gname.getD "") w e2 hli
    cases hgt : pyTruthyOpt gid with
    | true =>
      cases hgn : pyTruthyStrOpt gname with
      | false =>
        rw [runResult]
        simp [get_existing_gateway, SM.run_bind, SM.run_pure, hgt, hgn, hid]
      | true =>
        rw [runResult]
        simp [get_existing_gateway, SM.run_bind, SM.run_pure, hgt, hgn, hid, hn]
    | false =>
      cases hgn : pyTruthyStrOpt gname with
      | false =>
        rw [runResult]
        simp [get_existing_gateway, SM.run_bind, SM.run_pure, hgt, hgn]
      | true =>
        rw [runResult]
        simp [get_existing_gateway, SM.run_bind, SM.run_pure, hgt, hgn, hn]

/-- Witness for C7: with both lookups faulted, the probe still returns
`none` (soft failure) and leaves the world unchanged. -/
theorem c7_gateway_probe_fails_soft_witness :
    runResult (get_existing_gateway "us-east-1" (some (.str "gw-1"))
      (some "TestGWforPolicyEngine")
      { baseWorld with
          getGatewayInject := some ⟨"AccessDeniedException", "denied"⟩,
          listGatewaysInject := some ⟨"ThrottlingException", "slow down"⟩ }) = .ok none :=
  (c7_gateway_probe_fails_soft "us-east-1"
    { baseWorld with
        getGatewayInject := some ⟨"AccessDeniedException", "denied"⟩,
        listGatewaysInject := some ⟨"ThrottlingException", "slow down"⟩ }
    (some (.str "gw-1")) (some "TestGWforPolicyEngine") (by decide)).2.2.2
    ⟨"AccessDeniedException", "denied"⟩ ⟨"ThrottlingException", "slow down"⟩ rfl rfl

/-! ## C5 — the compute provisioner -/

/-- If the trace of `x` at `w` starts with `ev`, so does the trace of
`x >>= f` at `w`. -/
theorem SM.bind_trace_cons {α β : Type} {x : SM α} (f : α → SM β) {w : World}
    {ev : Event} {t : List Event} (hx : runTrace (x w) = ev :: t) :
    ∃ rest, runTrace ((x >>= f) w) = ev :: rest := by
  rcases hxw : x w with ⟨r, w1, tr⟩
  have htr : tr = ev :: t := by rw [hxw] at hx; exact hx
  cases r with
  | error e => exact ⟨t, by simp [SM.run_bind, hxw, runTrace, htr]⟩
  | ok a =>
    rcases hfw : f a w1 with ⟨r2, w2, tr2⟩
    exact ⟨t ++ tr2, by simp [SM.run_bind, hxw, hfw, runTrace, htr]⟩

/-- If the trace of `x` at `w` starts with `ev`, so does the trace of the
guarded `SM.catchExc x h` at `w`. -/
theorem SM.catchExc_trace_cons {α : Type} {x : SM α} (h : PyExc → Option (SM α))
    {w : World} {ev : Event} {t : List Event} (hx : runTrace (x w) = ev :: t) :
    ∃ rest, runTrace (SM.catchExc x h w) = ev :: rest := by
  rcases hxw : x w with ⟨r, w1, tr⟩
  have htr : tr = ev :: t := by rw [hxw] at hx; exact hx
  cases r with
  | error e =>
    cases hh : h e with
    | none => exact ⟨t, by simp [SM.catchExc, hxw, hh, runTrace, htr]⟩
    | some hc =>
      rcases hcw : hc w1 with ⟨r2, w2, tr2⟩
      exact ⟨t ++ tr2, by simp [SM.catchExc, hxw, hh, hcw, runTrace, htr]⟩
  | ok a => exact ⟨t, by simp [SM.catchExc, hxw, runTrace, htr]⟩

/-- The very first remote call of `create_refund_lambda` is always the
in-place code update attempt. -/
theorem create_refund_lambda_first (region fn : String) (w : World) :
    ∃ rest, runTrace (create_refund_lambda region fn w) =
      Event.callUpdateFunctionCode fn :: rest := by
  have h1 : runTrace ((callUpdateFunctionCode fn) w) =
      Event.callUpdateFunctionCode fn :: [] := rfl
  obtain ⟨t, ht⟩ := SM.bind_trace_cons
    (fun _ => SM.emit (Event.callWaiterFunctionUpdated fn) >>= fun _ => callGetFunction fn) h1
  obtain ⟨rest, hr⟩ := SM.catchExc_trace_cons
    (fun exc =>
      if exc.typeName = "ResourceNotFoundException" then
        some (do
          let role_name := fn ++ "-execution-role"
          let role_arn := "arn:aws:iam::" ++ w.accountId ++ ":role/" ++ role_name
          SM.catchExc
            (do
              callCreateRole role_name
              callAttachRolePolicy role_name
              SM.emit (Event.sleep 10))
            (fun exc2 =>
              if exc2.typeName = "EntityAlreadyExistsException" then some (pure ())
              else none)
          let arn ← callCreateFunction fn
          SM.emit (Event.callWaiterFunctionActive fn)
          pure arn)
      else none) ht
  exact ⟨rest, hr⟩

/-- The successful in-place update path: readiness wait, then the ARN of the
existing function is fetched and returned, with no creation calls. -/
theorem create_refund_lambda_update_path (region fn : String) (w : World) (L : LambdaR)
    (hu : w.updateFunctionInject = none)
    (hf : w.lambdas.find? (fun x => x.functionName = fn) = some L) :
    create_refund_lambda region fn w =
      (.ok L.functionArn, w,
       [.callUpdateFunctionCode fn, .callWaiterFunctionUpdated fn, .callGetFunction fn]) := by
  simp [create_refund_lambda, SM.run_bind, SM.run_pure, Bind.bind, SM.catchExc,
    SM.emit, SM.getWorld, callUpdateFunctionCode, callGetFunction, hu, hf]

/-- An update failure that is not the not-found signal propagates untouched:
no creation path is taken. -/
theorem create_refund_lambda_update_error (region fn : String) (w : World) (e : PyExc)
    (hu : w.updateFunctionInject = some e)
    (ht : e.typeName ≠ "ResourceNotFoundException") :
    create_refund_lambda region fn w = (.error e, w, [.callUpdateFunctionCode fn]) := by
  simp [create_refund_lambda, SM.run_bind, SM.run_pure, Bind.bind, SM.catchExc,
    SM.emit, SM.getWorld, callUpdateFunctionCode, callGetFunction, hu, ht]

/-- The creation path with a fresh role: role created, baseline policy
attached, fixed 10 s propagation delay, then the function is created and
awaited until active; the fresh ARN is returned. -/
theorem create_refund_lambda_create_path (region fn : String) (w : World)
    (hu : w.updateFunctionInject = none)
    (hf : w.lambdas.find? (fun x => x.functionName = fn) = none)
    (hr : w.createRoleInject = none)
    (hrc : (fn ++ "-execution-role") ∉ w.roles)
    (hcf : w.createFunctionInject = none) :
    create_refund_lambda region fn w =
      (.ok w.freshLambdaArn,
       { w with roles := (fn ++ "-execution-role") :: w.roles,
                lambdas := w.lambdas ++ [⟨fn, w.freshLambdaArn⟩] },
       [.callUpdateFunctionCode fn, .callCreateRole (fn ++ "-execution-role"),
        .callAttachRolePolicy (fn ++ "-execution-role"), .sleep 10,
        .callCreateFunction fn, .callWaiterFunctionActive fn]) := by
  simp [create_refund_lambda, SM.run_bind, SM.run_pure, Bind.bind, SM.catchExc,
    SM.emit, SM.getWorld, callUpdateFunctionCode, callGetFunction, callCreateRole,
    callAttachRolePolicy, callCreateFunction, pyResourceNotFound, hu, hf, hr, hrc, hcf]

/-- The creation path over an already-existing role: the conflict is treated
as success-with-reuse, the propagation delay is skipped, and the function is
still created and awaited. -/
theorem create_refund_lambda_role_exists (region fn : String) (w : World)
    (hu : w.updateFunctionInject = none)
    (hf : w.lambdas.find? (fun x => x.functionName = fn) = none)
    (hr : w.createRoleInject = none)
    (hrc : (fn ++ "-execution-role") ∈ w.roles)
    (hcf : w.createFunctionInject = none) :
    create_refund_lambda region fn w =
      (.ok w.freshLambdaArn,
       { w with lambdas := w.lambdas ++ [⟨fn, w.freshLambdaArn⟩] },
       [.callUpdateFunctionCode fn, .callCreateRole (fn ++ "-execution-role"),
        .callCreateFunction fn, .callWaiterFunctionActive fn]) := by
  simp [create_refund_lambda, SM.run_bind, SM.run_pure, Bind.bind, SM.catchExc,
    SM.emit, SM.getWorld, callUpdateFunctionCode, callGetFunction, callCreateRole,
    callAttachRolePolicy, callCreateFunction, pyResourceNotFound, pyEntityAlreadyExists,
    hu, hf, hr, hrc, hcf]

/-- A role-creation failure other than already-exists is fatal. -/
theorem create_refund_lambda_role_error (region fn : String) (w : World) (e : PyExc)
    (hu : w.updateFunctionInject = none)
    (hf : w.lambdas.find? (fun x => x.functionName = fn) = none)
    (hr : w.createRoleInject = some e)
    (ht : e.typeName ≠ "EntityAlreadyExistsException") :
    create_refund_lambda region fn w =
      (.error e, w,
       [.callUpdateFunctionCode fn, .callCreateRole (fn ++ "-execution-role")]) := by
  simp [create_refund_lambda, SM.run_bind, SM.run_pure, Bind.bind, SM.catchExc,
    SM.emit, SM.getWorld, callUpdateFunctionCode, callGetFunction, callCreateRole,
    callAttachRolePolicy, callCreateFunction, pyResourceNotFound, hu, hf, hr, ht]

/-- A function-creation failure is fatal and propagated. -/
theorem create_refund_lambda_function_error (region fn : String) (w : World) (e : PyExc)
    (hu : w.updateFunctionInject = none)
    (hf : w.lambdas.find? (fun x => x.functionName = fn) = none)
    (hr : w.createRoleInject = none)
    (hrc : (fn ++ "-execution-role") ∉ w.roles)
    (hcf : w.createFunctionInject = some e) :
    create_refund_lambda region fn w =
      (.error e, { w with roles := (fn ++ "-execution-role") :: w.roles },
       [.callUpdateFunctionCode fn, .callCreateRole (fn ++ "-execution-role"),
        .callAttachRolePolicy (fn ++ "-execution-role"), .sleep 10,
        .callCreateFunction fn]) := by
  simp [create_refund_lambda, SM.run_bind, SM.run_pure, Bind.bind, SM.catchExc,
    SM.emit, SM.getWorld, callUpdateFunctionCode, callGetFunction, callCreateRole,
    callAttachRolePolicy, callCreateFunction, pyResourceNotFound, hu, hf, hr, hrc, hcf]

/-- C5: `create_refund_lambda` always attempts the in-place update first;
only the not-found signal takes the creation path, where the execution role
is created with the baseline policy and a fixed 10 s settle delay (skipped
when the role already exists, which is success-with-reuse); both paths end
with a readiness wait (`function_updated_v2` / `function_active_v2`) before
the ARN is returned, and every other failure propagates. -/
theorem c5_compute_provisioner (region fn : String) (w : World) :
    (∃ rest, runTrace (create_refund_lambda region fn w) =
      Event.callUpdateFunctionCode fn :: rest) ∧
    (∀ L : LambdaR, w.updateFunctionInject = none →
      w.lambdas.find? (fun x => x.functionName = fn) = some L →
      create_refund_lambda region fn w =
        (.ok L.functionArn, w,
         [.callUpdateFunctionCode fn, .callWaiterFunctionUpdated fn,
          .callGetFunction fn])) ∧
    (∀ e : PyExc, w.updateFunctionInject = some e →
      e.typeName ≠ "ResourceNotFoundException" →
      create_refund_lambda region fn w = (.error e, w, [.callUpdateFunctionCode fn])) ∧
    (w.updateFunctionInject = none →
      w.lambdas.find? (fun x => x.functionName = fn) = none →
      w.createRoleInject = none →
      (fn ++ "-execution-role") ∉ w.roles →
      w.createFunctionInject = none →
      create_refund_lambda region fn w =
        (.ok w.freshLambdaArn,
         { w with roles := (fn ++ "-execution-role") :: w.roles,
                  lambdas := w.lambdas ++ [⟨fn, w.freshLambdaArn⟩] },
         [.callUpdateFunctionCode fn, .callCreateRole (fn ++ "-execution-role"),
          .callAttachRolePolicy (fn ++ "-execution-role"), .sleep 10,
          .callCreateFunction fn, .callWaiterFunctionActive fn])) ∧
    (w.updateFunctionInject = none →
      w.lambdas.find? (fun x => x.functionName = fn) = none →
      w.createRoleInject = none →
      (fn ++ "-execution-role") ∈ w.roles →
      w.createFunctionInject = none →
      create_refund_lambda region fn w =
        (.ok w.freshLambdaArn,
         { w with lambdas := w.lambdas ++ [⟨fn, w.freshLambdaArn⟩] },
         [.callUpdateFunctionCode fn, .callCreateRole (fn ++ "-execution-role"),
          .callCreateFunction fn, .callWaiterFunctionActive fn])) ∧
    (∀ e : PyExc, w.updateFunctionInject = none →
      w.lambdas.find? (fun x => x.functionName = fn) = none →
      w.createRoleInject = some e →
      e.typeName ≠ "EntityAlreadyExistsException" →
      create_refund_lambda region fn w =
        (.error e, w,
         [.callUpdateFunctionCode fn, .callCreateRole (fn ++ "-execution-role")])) ∧
    (∀ e : PyExc, w.updateFunctionInject = none →
      w.lambdas.find? (fun x => x.functionName = fn) = none →
      w.createRoleInject = none →
      (fn ++ "-execution-role") ∉ w.roles →
      w.createFunctionInject = some e →
      create_refund_lambda region fn w =
        (.error e, { w with roles := (fn ++ "-execution-role") :: w.roles },
         [.callUpdateFunctionCode fn, .callCreateRole (fn ++ "-execution-role"),
          .callAttachRolePolicy (fn ++ "-execution-role"), .sleep 10,
          .callCreateFunction fn])) :=
  ⟨create_refund_lambda_first region fn w,
   fun L hu hf => create_refund_lambda_update_path region fn w L hu hf,
   fun e hu ht => create_refund_lambda_update_error region fn w e hu ht,
   fun hu hf hr hrc hcf => create_refund_lambda_create_path region fn w hu hf hr hrc hcf,
   fun hu hf hr hrc hcf => create_refund_lambda_role_exists region fn w hu hf hr hrc hcf,
   fun e hu hf hr ht => create_refund_lambda_role_error region fn w e hu hf hr ht,
   fun e hu hf hr hrc hcf => create_refund_lambda_function_error region fn w e hu hf hr hrc hcf⟩

/-- Witness for C5: the creation path in the empty environment returns the
fresh ARN after role creation, settle delay, and the active wait. -/
theorem c5_compute_provisioner_witness :
    create_refund_lambda "us-east-1" "RefundLambda" baseWorld =
      (.ok "arn:aws:lambda:us-east-1:123456789012:function:RefundLambda",
       { baseWorld with
          roles := ["RefundLambda-execution-role"],
          lambdas := [⟨"RefundLambda",
            "arn:aws:lambda:us-east-1:123456789012:function:RefundLambda"⟩] },
       [.callUpdateFunctionCode "RefundLambda",
        .callCreateRole "RefundLambda-execution-role",
        .callAttachRolePolicy "RefundLambda-execution-role", .sleep 10,
        .callCreateFunction "RefundLambda",
        .callWaiterFunctionActive "RefundLambda"]) :=
  (c5_compute_provisioner "us-east-1" "RefundLambda" baseWorld).2.2.2.1
    rfl rfl rfl (by decide) rfl

/-! ## C3 — conflict tolerance of target creation -/

/-- An environment with a ready gateway (of gateway ARN `arn`) and the
function pre-existing, no target yet, and target creation raising `e`. -/
def conflictWorld (arn : String) (e : PyExc) : World :=
  { baseWorld with
    lambdas := [⟨"RefundLambda", "arn:aws:lambda:us-east-1:123456789012:function:RefundLambda"⟩]
    gateways := [⟨"gw-c3", "TestGWforPolicyEngine", "READY", arn,
      "https://gw-c3.gateway.example.com/mcp"⟩]
    createTargetInject := some e }

/-- C3: when `create_mcp_gateway_target` raises an exception of the conflict
class (type name containing `ConflictException` or message containing
`already exists`), the run completes successfully and the persisted
`gateway_arn` is the probed gateway object's `gatewayArn` (no creation
response exists); any exception outside that class is re-raised and the run
aborts with no config file written. -/
theorem c3_target_conflict_tolerance (arn : String) (e : PyExc) :
    ((pyInStr "ConflictException" e.typeName || pyInStr "already exists" e.msg) = true →
      runResult (setup_gateway (some "us-east-1") none (conflictWorld arn e)) =
        .ok { gateway_url := "https://gw-c3.gateway.example.com/mcp"
              gateway_id := "gw-c3"
              gateway_arn := arn
              region := "us-east-1"
              client_info := .obj [("client_id", .str "cid-1"), ("client_secret", .str "sec-1")]
              lambda_arn := .str "arn:aws:lambda:us-east-1:123456789012:function:RefundLambda" } ∧
      Event.writeConfigFile ∈
        runTrace (setup_gateway (some "us-east-1") none (conflictWorld arn e))) ∧
    ((pyInStr "ConflictException" e.typeName || pyInStr "already exists" e.msg) = false →
      runResult (setup_gateway (some "us-east-1") none (conflictWorld arn e)) = .error e ∧
      Event.writeConfigFile ∉
        runTrace (setup_gateway (some "us-east-1") none (conflictWorld arn e)) ∧
      (runWorld (setup_gateway (some "us-east-1") none (conflictWorld arn e))).fileState =
        .absent) := by
  constructor
  · intro h
    refine ⟨?_, ?_⟩ <;>
    simp [setup_gateway, conflictWorld, baseWorld, runResult, runTrace, SM.run_bind,
      SM.run_pure, Bind.bind, Pure.pure, Except.bind, SM.tryCatchAll, SM.catchExc,
      SM.liftE, SM.emit, SM.getWorld, callGetDefaultRegion, callLoadExistingConfig,
      load_existing_config, get_existing_gateway, probeGatewayById, probeGatewayByName, gatewayNameScan, get_existing_target,
      create_refund_lambda, callGetGateway, callListGateways, callListGatewayTargets,
      callUpdateFunctionCode, callGetFunction, callCreateRole, callAttachRolePolicy,
      callCreateFunction, callCreateOauthAuthorizer, callCreateMcpGateway,
      callCreateMcpGatewayTarget, writeConfigFile, World.targetsOf, objGet, objGetD,
      pyContains, pyOrStr, ConfigOut.toJVal, h]
  · intro h
    refine ⟨?_, ?_, ?_⟩ <;>
    simp [setup_gateway, conflictWorld, baseWorld, runResult, runTrace, runWorld,
      SM.run_bind, SM.run_pure, Bind.bind, Pure.pure, Except.bind, SM.tryCatchAll,
      SM.catchExc, SM.liftE, SM.emit, SM.getWorld, callGetDefaultRegion,
      callLoadExistingConfig, load_existing_config, get_existing_gateway,
      probeGatewayById, probeGatewayByName, gatewayNameScan, get_existing_target, create_refund_lambda, callGetGateway,
      callListGateways, callListGatewayTargets, callUpdateFunctionCode, callGetFunction,
      callCreateRole, callAttachRolePolicy, callCreateFunction,
      callCreateOauthAuthorizer, callCreateMcpGateway, callCreateMcpGatewayTarget,
      writeConfigFile, World.targetsOf, objGet, objGetD, pyContains, pyOrStr,
      ConfigOut.toJVal, h]

/-- Witness for C3 at a concrete conflict exception. -/
theorem c3_target_conflict_tolerance_witness :
    runResult (setup_gateway (some "us-east-1") none
        (conflictWorld "arn:gw-c3-concrete" pyConflict)) =
      .ok { gateway_url := "https://gw-c3.gateway.example.com/mcp"
            gateway_id := "gw-c3"
            gateway_arn := "arn:gw-c3-concrete"
            region := "us-east-1"
            client_info := .obj [("client_id", .str "cid-1"), ("client_secret", .str "sec-1")]
            lambda_arn := .str "arn:aws:lambda:us-east-1:123456789012:function:RefundLambda" } :=
  ((c3_target_conflict_tolerance "arn:gw-c3-concrete" pyConflict).1 (by decide)).1

/-! ## C6 — the authorizer trust boundary -/

/-- A trusted snapshot (ready gateway `gw-snap` and matching target exist)
whose `client_info` and `lambda_arn` are arbitrary values. -/
def snapshotReuseWorld (ci la : JVal) : World :=
  { baseWorld with
    fileState := .content (.obj [("gateway_id", .str "gw-snap"), ("client_info", ci),
      ("lambda_arn", la)])
    gateways := [⟨"gw-snap", "TestGWforPolicyEngine", "READY", "arn:gw-snap",
      "https://gw-snap.gateway.example.com/mcp"⟩]
    targets := [("gw-snap", ⟨"tg-snap", "RefundToolTarget"⟩)] }

/-- Full characterization of a run over `snapshotReuseWorld` with truthy
snapshot fields: the probed gateway, client info and lambda ARN are all
reused, only probe calls and the final write happen. -/
theorem snapshotReuse_run (ci la : JVal) (h1 : pyTruthy ci = true)
    (h2 : pyTruthy la = true) :
    setup_gateway (some "us-east-1") none (snapshotReuseWorld ci la) =
      (.ok { gateway_url := "https://gw-snap.gateway.example.com/mcp"
             gateway_id := "gw-snap"
             gateway_arn := "arn:gw-snap"
             region := "us-east-1"
             client_info := ci
             lambda_arn := la },
       { snapshotReuseWorld ci la with
          fileState := .content (ConfigOut.toJVal
            { gateway_url := "https://gw-snap.gateway.example.com/mcp"
              gateway_id := "gw-snap"
              gateway_arn := "arn:gw-snap"
              region := "us-east-1"
              client_info := ci
              lambda_arn := la }) },
       [Event.callGetGateway, Event.callListGatewayTargets "gw-snap",
        Event.writeConfigFile]) := by
  have hm : pyInStr "<" "gw-snap" = false := by decide
  simp [hm, setup_gateway, snapshotReuseWorld, baseWorld, SM.run_bind, SM.run_pure,
    Bind.bind, Pure.pure, Except.bind, SM.tryCatchAll, SM.catchExc, SM.liftE, SM.emit,
    SM.getWorld, callGetDefaultRegion, callLoadExistingConfig, load_existing_config,
    get_existing_gateway, probeGatewayById, probeGatewayByName, gatewayNameScan, get_existing_target, create_refund_lambda,
    callGetGateway, callListGateways, callListGatewayTargets, callUpdateFunctionCode,
    callGetFunction, callCreateRole, callAttachRolePolicy, callCreateFunction,
    callCreateOauthAuthorizer, callCreateMcpGateway, callCreateMcpGatewayTarget,
    writeConfigFile, World.targetsOf, objGet, objGetD, pyContains, pyOrStr,
    ConfigOut.toJVal, h1, h2]

/-- A trusted snapshot carrying client info, but the recorded gateway no
longer exists anywhere (neither by id nor by name). -/
def snapshotGoneWorld : World :=
  { baseWorld with
    fileState := .content (.obj [("gateway_id", .str "gw-gone"),
      ("client_info", .str "secret-client-info"),
      ("lambda_arn", .str "arn:aws:lambda:us-east-1:123456789012:function:RefundSnap")]) }

/-- A trusted snapshot without client info, while the recorded gateway and
its target exist and are ready. -/
def snapshotNoClientWorld : World :=
  { baseWorld with
    fileState := .content (.obj [("gateway_id", .str "gw-snap"),
      ("lambda_arn", .str "arn:aws:lambda:us-east-1:123456789012:function:RefundSnap")])
    gateways := [⟨"gw-snap", "TestGWforPolicyEngine", "READY", "arn:gw-snap",
      "https://gw-snap.gateway.example.com/mcp"⟩]
    targets := [("gw-snap", ⟨"tg-snap", "RefundToolTarget"⟩)] }

/-- C6 counterexample: the snapshot is trusted (valid `gateway_id`) and
contains `client_info`, yet a new authorizer is created, because the stored
client info is only reused inside the branch where the snapshot's gateway is
found by id — here the gateway is gone, so the run recreates everything,
contradicting the claim that a trusted snapshot with client info never
creates an authorizer. -/
theorem c6_counterexample :
    CreateCall.createOauthAuthorizer ∈
      creationCalls (runTrace (setup_gateway (some "us-east-1") none snapshotGoneWorld)) ∧
    isOkB (runResult (setup_gateway (some "us-east-1") none snapshotGoneWorld)) = true := by
  decide

/-- C6 (amended): the authorizer creation call is made if and only if no
client info was carried over, and client info is carried over exactly when
the snapshot is trusted, contains truthy client info, and its recorded
gateway is confirmed by id: (i) in that case no authorizer is created and the
written client info equals the loaded value unchanged; (ii) with no snapshot,
an authorizer is created even though a ready gateway with the expected name
exists; (iii) with a trusted snapshot lacking client info and a confirmed
gateway, an authorizer is still created (no credential-less reuse). -/
theorem c6_authorizer_trust_boundary :
    (∀ ci la : JVal, pyTruthy ci = true → pyTruthy la = true →
      CreateCall.createOauthAuthorizer ∉
        creationCalls (runTrace (setup_gateway (some "us-east-1") none
          (snapshotReuseWorld ci la))) ∧
      runResult (setup_gateway (some "us-east-1") none (snapshotReuseWorld ci la)) =
        .ok { gateway_url := "https://gw-snap.gateway.example.com/mcp"
              gateway_id := "gw-snap"
              gateway_arn := "arn:gw-snap"
              region := "us-east-1"
              client_info := ci
              lambda_arn := la }) ∧
    (CreateCall.createOauthAuthorizer ∈
      creationCalls (runTrace (setup_gateway (some "us-east-1") none
        (partialWorld true true true))) ∧
     isOkB (runResult (setup_gateway (some "us-east-1") none
        (partialWorld true true true))) = true) ∧
    (CreateCall.createOauthAuthorizer ∈
      creationCalls (runTrace (setup_gateway (some "us-east-1") none
        snapshotNoClientWorld)) ∧
     isOkB (runResult (setup_gateway (some "us-east-1") none
        snapshotNoClientWorld)) = true) := by
  refine ⟨?_, by decide, by decide⟩
  intro ci la h1 h2
  rw [show runTrace (setup_gateway (some "us-east-1") none (snapshotReuseWorld ci la)) =
      [Event.callGetGateway, Event.callListGatewayTargets "gw-snap", Event.writeConfigFile]
    from by rw [runTrace, snapshotReuse_run ci la h1 h2],
    show runResult (setup_gateway (some "us-east-1") none (snapshotReuseWorld ci la)) =
      .ok { gateway_url := "https://gw-snap.gateway.example.com/mcp"
            gateway_id := "gw-snap"
            gateway_arn := "arn:gw-snap"
            region := "us-east-1"
            client_info := ci
            lambda_arn := la }
    from by rw [runResult, snapshotReuse_run ci la h1 h2]]
  exact ⟨by decide, rfl⟩

/-- Witness for C6 (amended) at concrete truthy snapshot fields. -/
theorem c6_authorizer_trust_boundary_witness :
    CreateCall.createOauthAuthorizer ∉
      creationCalls (runTrace (setup_gateway (some "us-east-1") none
        (snapshotReuseWorld (.str "ci-blob") (.str "arn:lambda-snap")))) ∧
    runResult (setup_gateway (some "us-east-1") none
        (snapshotReuseWorld (.str "ci-blob") (.str "arn:lambda-snap"))) =
      .ok { gateway_url := "https://gw-snap.gateway.example.com/mcp"
            gateway_id := "gw-snap"
            gateway_arn := "arn:gw-snap"
            region := "us-east-1"
            client_info := .str "ci-blob"
            lambda_arn := .str "arn:lambda-snap" } :=
  c6_authorizer_trust_boundary.1 (.str "ci-blob") (.str "arn:lambda-snap")
    (by decide) (by decide)

/-! ## C10 — the validity gate inspects only `gateway_id` -/

/-- A trusted snapshot whose `client_info` is the empty string (falsy) while
its gateway, target and recorded lambda exist. -/
def emptyClientInfoWorld : World :=
  { baseWorld with
    fileState := .content (.obj [("gateway_id", .str "gw-snap"),
      ("client_info", .str ""),
      ("lambda_arn", .str "arn:aws:lambda:us-east-1:123456789012:function:RefundSnap")])
    gateways := [⟨"gw-snap", "TestGWforPolicyEngine", "READY", "arn:gw-snap",
      "https://gw-snap.gateway.example.com/mcp"⟩]
    targets := [("gw-snap", ⟨"tg-snap", "RefundToolTarget"⟩)] }

/-- C10 counterexample: the claim says empty `client_info` values are reused
verbatim, but an empty (falsy) `client_info` is not reused — a fresh
authorizer is created and the written `client_info` is the newly created
client object, not the loaded empty string. -/
theorem c10_counterexample :
    runResult (setup_gateway (some "us-east-1") none emptyClientInfoWorld) =
      .ok { gateway_url := "https://gw-snap.gateway.example.com/mcp"
            gateway_id := "gw-snap"
            gateway_arn := "arn:gw-snap"
            region := "us-east-1"
            client_info := .obj [("client_id", .str "cid-1"), ("client_secret", .str "sec-1")]
            lambda_arn := .str "arn:aws:lambda:us-east-1:123456789012:function:RefundSnap" } ∧
    JVal.str "" ≠ JVal.obj [("client_id", .str "cid-1"), ("client_secret", .str "sec-1")] ∧
    CreateCall.createOauthAuthorizer ∈
      creationCalls (runTrace (setup_gateway (some "us-east-1") none emptyClientInfoWorld)) :=
  ⟨rfl, fun h => JVal.noConfusion h, by decide⟩

/-- C10 (amended): the snapshot validity gate inspects only `gateway_id` —
any config whose `gateway_id` is truthy and marker-free is returned by
`load_existing_config` whatever its other fields hold — and truthy
`client_info` / `lambda_arn` values are then reused verbatim with no
placeholder check of their own (placeholder-marked values included), while
falsy or missing ones trigger fresh creation instead of verbatim reuse. -/
theorem c10_gate_only_gateway_id :
    (∀ (fields : List (String × JVal)) (kv : String × JVal),
      fields.find? (fun kv => kv.1 = "gateway_id") = some kv →
      pyTruthy kv.2 = true →
      pyContains "<" kv.2 = .ok false →
      load_existing_config (.content (.obj fields)) = .ok (some (.obj fields))) ∧
    (∀ ci la : JVal, pyTruthy ci = true → pyTruthy la = true →
      runResult (setup_gateway (some "us-east-1") none (snapshotReuseWorld ci la)) =
        .ok { gateway_url := "https://gw-snap.gateway.example.com/mcp"
              gateway_id := "gw-snap"
              gateway_arn := "arn:gw-snap"
              region := "us-east-1"
              client_info := ci
              lambda_arn := la }) := by
  constructor
  · intro fields kv hfind htr hc
    simp [load_existing_config, Bind.bind, Except.bind, objGet, objGetD, hfind, htr, hc]
  · intro ci la h1 h2
    rw [runResult, snapshotReuse_run ci la h1 h2]

/-- Witness for C10 (amended): placeholder-marked snapshot values are reused
verbatim into the written config. -/
theorem c10_gate_only_gateway_id_witness :
    load_existing_config (.content (.obj [("gateway_id", .str "gw-ok"),
        ("client_info", .str "<CLIENT_INFO>"), ("lambda_arn", .str "<LAMBDA_ARN>")])) =
      .ok (some (.obj [("gateway_id", .str "gw-ok"),
        ("client_info", .str "<CLIENT_INFO>"), ("lambda_arn", .str "<LAMBDA_ARN>")])) ∧
    runResult (setup_gateway (some "us-east-1") none
        (snapshotReuseWorld (.str "<CLIENT_INFO>") (.str "<LAMBDA_ARN>"))) =
      .ok { gateway_url := "https://gw-snap.gateway.example.com/mcp"
            gateway_id := "gw-snap"
            gateway_arn := "arn:gw-snap"
            region := "us-east-1"
            client_info := .str "<CLIENT_INFO>"
            lambda_arn := .str "<LAMBDA_ARN>" } :=
  ⟨c10_gate_only_gateway_id.1 [("gateway_id", .str "gw-ok"),
      ("client_info", .str "<CLIENT_INFO>"), ("lambda_arn", .str "<LAMBDA_ARN>")]
      ("gateway_id", .str "gw-ok") rfl rfl rfl,
   c10_gate_only_gateway_id.2 (.str "<CLIENT_INFO>") (.str "<LAMBDA_ARN>")
      (by decide) (by decide)⟩

/-! ## C9 — the persist step always executes on the success path -/

theorem SM.run_bind_ok {α β : Type} {x : SM α} {f : α → SM β} {w w1 : World} {a : α}
    {tr1 : List Event} (hx : x w = (.ok a, w1, tr1)) :
    (x >>= f) w = ((f a w1).1, (f a w1).2.1, tr1 ++ (f a w1).2.2) := by
  rw [SM.run_bind, hx]

theorem SM.run_bind_error {α β : Type} {x : SM α} {f : α → SM β} {w w1 : World}
    {e : PyExc} {tr1 : List Event} (hx : x w = (.error e, w1, tr1)) :
    (x >>= f) w = (.error e, w1, tr1) := by
  rw [SM.run_bind, hx]

/-- Inversion of a successful bind: the prefix succeeded and the
continuation ran on its output. -/
theorem SM.bind_eq_ok {α β : Type} {x : SM α} {f : α → SM β} {w wf : World} {b : β}
    {tr : List Event} (h : (x >>= f) w = (.ok b, wf, tr)) :
    ∃ a w1 tr1 tr2, x w = (.ok a, w1, tr1) ∧ f a w1 = (.ok b, wf, tr2) ∧
      tr = tr1 ++ tr2 := by
  rcases hx : x w with ⟨r, w1, tr1⟩
  cases r with
  | error e =>
    rw [SM.run_bind_error hx] at h
    simp at h
  | ok a =>
    rw [SM.run_bind_ok hx] at h
    rcases hf : f a w1 with ⟨r2, w2, tr2⟩
    rw [hf] at h
    simp only [Prod.mk.injEq] at h
    obtain ⟨h1, h2, h3⟩ := h
    exact ⟨a, w1, tr1, tr2, rfl, by rw [hf, h1, h2], h3.symm⟩

/-- Last-element membership survives prepending a list; the prefix is explicit
so it can be supplied directly when elaboration cannot infer it. -/
theorem last_mem_append {α : Type} (l : List α) {t : List α} {a : α}
    (h : a ∈ t.getLast?) : a ∈ (l ++ t).getLast? :=
  List.mem_getLast?_append_of_mem_getLast? h

/-- The keys of a JSON object value. -/
def jsonKeys : JVal → List String
  | .obj fs => fs.map Prod.fst
  | _ => []

/-- C9: every run that returns successfully ends in the persist step: the
final file state is wholesale-replaced by exactly the written record (no
field of the prior file survives unless recomputed into it), the last event
of the trace is the config write, and the written JSON object carries
exactly the six fields `gateway_url`, `gateway_id`, `gateway_arn`, `region`,
`client_info`, `lambda_arn` in that order. -/
theorem c9_persist_on_success (regionArg roleArn : Option String) (w : World)
    (c : ConfigOut) (w1 : World) (tr : List Event)
    (h : setup_gateway regionArg roleArn w = (.ok c, w1, tr)) :
    w1.fileState = .content c.toJVal ∧
    tr.getLast? = some Event.writeConfigFile ∧
    jsonKeys c.toJVal =
      ["gateway_url", "gateway_id", "gateway_arn", "region", "client_info",
       "lambda_arn"] := by
  simp only [setup_gateway] at h
  obtain ⟨region, wa, t1, t2, h1, h, htA⟩ := SM.bind_eq_ok h
  obtain ⟨cfgOpt, wb, t3, t4, h2, h, htB⟩ := SM.bind_eq_ok h
  obtain ⟨⟨g1, cog1, la1⟩, wc, t5, t6, h3, h, htC⟩ := SM.bind_eq_ok h
  obtain ⟨gateway2, wd, t7, t8, h4, h, htD⟩ := SM.bind_eq_ok h
  obtain ⟨lambda_arn, we, t9, t10, h5, h, htE⟩ := SM.bind_eq_ok h
  obtain ⟨cognito, wf2, t11, t12, h6, h, htF⟩ := SM.bind_eq_ok h
  obtain ⟨gateway, wg, t13, t14, h7, h, htG⟩ := SM.bind_eq_ok h
  obtain ⟨tgt, wh, t15, t16, h8, h, htH⟩ := SM.bind_eq_ok h
  obtain ⟨ltgt, wi, t17, t18, h9, h, htI⟩ := SM.bind_eq_ok h
  obtain ⟨u, wj, t19, t20, h10, h, htJ⟩ := SM.bind_eq_ok h
  simp only [writeConfigFile, Prod.mk.injEq] at h10
  simp only [SM.run_pure, Prod.mk.injEq, Except.ok.injEq] at h
  obtain ⟨hc, hw1, ht20⟩ := h
  obtain ⟨_, hwj, ht19⟩ := h10
  refine ⟨?_, ?_, ?_⟩
  · rw [← hw1, ← hwj, ← hc]
  · have hlast : t18.getLast? = some Event.writeConfigFile := by
      rw [htJ, ← ht19, ← ht20]
      rfl
    rw [htA, htB, htC, htD, htE, htF, htG, htH, htI]
    have m : Event.writeConfigFile ∈ t18.getLast? := by rw [hlast]; rfl
    have m := last_mem_append t17 m
    have m := last_mem_append t15 m
    have m := last_mem_append t13 m
    have m := last_mem_append t11 m
    have m := last_mem_append t9 m
    have m := last_mem_append t7 m
    have m := last_mem_append t5 m
    have m := last_mem_append t3 m
    have m := last_mem_append t1 m
    exact Option.mem_def.mp m
  · rw [← hc]
    rfl

/-- Witness for C9 at a concrete successful run. -/
theorem c9_persist_on_success_witness :
    ({ snapshotReuseWorld (.str "ci-1") (.str "arn-l1") with
        fileState := .content (ConfigOut.toJVal
          { gateway_url := "https://gw-snap.gateway.example.com/mcp"
            gateway_id := "gw-snap"
            gateway_arn := "arn:gw-snap"
            region := "us-east-1"
            client_info := .str "ci-1"
            lambda_arn := .str "arn-l1" }) } : World).fileState =
      .content (ConfigOut.toJVal
        { gateway_url := "https://gw-snap.gateway.example.com/mcp"
          gateway_id := "gw-snap"
          gateway_arn := "arn:gw-snap"
          region := "us-east-1"
          client_info := .str "ci-1"
          lambda_arn := .str "arn-l1" }) ∧
    ([Event.callGetGateway, Event.callListGatewayTargets "gw-snap",
      Event.writeConfigFile].getLast? = some Event.writeConfigFile) ∧
    jsonKeys (ConfigOut.toJVal
      { gateway_url := "https://gw-snap.gateway.example.com/mcp"
        gateway_id := "gw-snap"
        gateway_arn := "arn:gw-snap"
        region := "us-east-1"
        client_info := .str "ci-1"
        lambda_arn := .str "arn-l1" }) =
      ["gateway_url", "gateway_id", "gateway_arn", "region", "client_info",
       "lambda_arn"] :=
  c9_persist_on_success (some "us-east-1") none
    (snapshotReuseWorld (.str "ci-1") (.str "arn-l1"))
    { gateway_url := "https://gw-snap.gateway.example.com/mcp"
      gateway_id := "gw-snap"
      gateway_arn := "arn:gw-snap"
      region := "us-east-1"
      client_info := .str "ci-1"
      lambda_arn := .str "arn-l1" }
    { snapshotReuseWorld (.str "ci-1") (.str "arn-l1") with
        fileState := .content (ConfigOut.toJVal
          { gateway_url := "https://gw-snap.gateway.example.com/mcp"
            gateway_id := "gw-snap"
            gateway_arn := "arn:gw-snap"
            region := "us-east-1"
            client_info := .str "ci-1"
            lambda_arn := .str "arn-l1" }) }
    [Event.callGetGateway, Event.callListGatewayTargets "gw-snap",
     Event.writeConfigFile]
    rfl

/-! ## C1 — idempotence of the orchestrator -/

/-- Wellformedness of an environment. -/
def WF (w : World) : Prop :=
  w.updateFunctionInject = none ∧ w.createRoleInject = none ∧
  w.createFunctionInject = none ∧ w.getGatewayInject = none ∧
  w.listGatewaysInject = none ∧ w.listTargetsInject = none ∧
  w.createOauthInject = none ∧ w.createGatewayInject = none ∧
  w.createTargetInject = none ∧
  w.gateways.Pairwise (fun a b => a.gatewayId ≠ b.gatewayId) ∧
  (∀ g ∈ w.gateways, g.gatewayId ≠ "" ∧ pyInStr "<" g.gatewayId = false) ∧
  (∀ g ∈ w.gateways, g.gatewayId ≠ w.freshGatewayId) ∧
  w.freshGatewayId ≠ "" ∧ pyInStr "<" w.freshGatewayId = false ∧
  pyTruthy w.freshClientInfo = true ∧
  w.freshLambdaArn ≠ "" ∧
  (∀ L ∈ w.lambdas, L.functionArn ≠ "")

/-- The region resolution of lines 271-272: an absent or empty argument
falls back to the ambient default. -/
def resolveRegion (regionArg : Option String) (w : World) : String :=
  match regionArg with
  | none => w.defaultRegion
  | some r => if r = "" then w.defaultRegion else r

/-- `resolveRegion` depends only on the default region. -/
theorem resolveRegion_congr {a : Option String} {w w2 : World}
    (h : w2.defaultRegion = w.defaultRegion) :
    resolveRegion a w2 = resolveRegion a w := by
  cases a <;> simp [resolveRegion, h]

/-- What a successfully written snapshot guarantees about the resulting
world: the persisted record points at a ready gateway, carries truthy
client info and lambda ARN, the target exists, and probes are unfaulted. -/
def SnapshotGood (regionArg : Option String) (c : ConfigOut) (w : World) : Prop :=
  w.getGatewayInject = none ∧ w.listTargetsInject = none ∧
  w.fileState = .content c.toJVal ∧
  c.gateway_id ≠ "" ∧ pyInStr "<" c.gateway_id = false ∧
  (∃ g : GatewayR, w.gateways.find? (fun x => x.gatewayId = c.gateway_id) = some g ∧
    (g.status = "READY" ∨ g.status = "ACTIVE") ∧
    g.gatewayId = c.gateway_id ∧ g.gatewayUrl = c.gateway_url ∧
    g.gatewayArn = c.gateway_arn) ∧
  pyTruthy c.client_info = true ∧ pyTruthy c.lambda_arn = true ∧
  (∃ t : TargetR,
    (w.targetsOf c.gateway_id).find? (fun t => t.name = "RefundToolTarget") = some t) ∧
  c.region = resolveRegion regionArg w

/-- Rerun lemma: over a world satisfying `SnapshotGood`, the orchestrator
reuses everything, issues only the two probe calls plus the write, and
rewrites the identical config. -/
theorem snapshotGood_rerun (regionArg roleArn : Option String) (c : ConfigOut)
    (w : World) (hsg : SnapshotGood regionArg c w) :
    setup_gateway regionArg roleArn w =
      (.ok c, { w with fileState := .content c.toJVal },
       [Event.callGetGateway, Event.callListGatewayTargets c.gateway_id,
        Event.writeConfigFile]) := by
  obtain ⟨hgi, hti, hfs, hgid_ne, hgid_nm, ⟨g, hfind, hst, hggid, hgurl, hgarn⟩,
    hci, hla, ⟨t, htfind⟩, hreg⟩ := hsg
  obtain ⟨url, gid, arn, reg, ci, la⟩ := c
  simp only [ConfigOut.toJVal] at hfs
  simp only at hgid_ne hgid_nm hci hla hreg
  simp only at hfind hggid hgurl hgarn htfind
  subst hggid hgurl hgarn hreg
  cases regionArg with
  | none =>
    simp [setup_gateway, SM.run_bind, SM.run_pure, Bind.bind, Pure.pure, Except.bind,
      SM.tryCatchAll, SM.catchExc, SM.liftE, SM.emit, SM.getWorld, callGetDefaultRegion,
      callLoadExistingConfig, load_existing_config, get_existing_gateway,
      probeGatewayById, probeGatewayByName, gatewayNameScan, get_existing_target,
      create_refund_lambda, callGetGateway, callListGateways, callListGatewayTargets,
      callUpdateFunctionCode, callGetFunction, callCreateRole, callAttachRolePolicy,
      callCreateFunction, callCreateOauthAuthorizer, callCreateMcpGateway,
      callCreateMcpGatewayTarget, writeConfigFile, objGet, objGetD,
      pyContains, pyOrStr, ConfigOut.toJVal, resolveRegion, hfs, hgi, hti, hfind, hst,
      hci, hla, htfind, hgid_ne, hgid_nm, bne_iff_ne]
  | some r =>
    by_cases hr : r = ""
    · subst hr
      simp [setup_gateway, SM.run_bind, SM.run_pure, Bind.bind, Pure.pure, Except.bind,
        SM.tryCatchAll, SM.catchExc, SM.liftE, SM.emit, SM.getWorld, callGetDefaultRegion,
        callLoadExistingConfig, load_existing_config, get_existing_gateway,
        probeGatewayById, probeGatewayByName, gatewayNameScan, get_existing_target,
        create_refund_lambda, callGetGateway, callListGateways, callListGatewayTargets,
        callUpdateFunctionCode, callGetFunction, callCreateRole, callAttachRolePolicy,
        callCreateFunction, callCreateOauthAuthorizer, callCreateMcpGateway,
        callCreateMcpGatewayTarget, writeConfigFile, objGet, objGetD,
        pyContains, pyOrStr, ConfigOut.toJVal, resolveRegion, hfs, hgi, hti, hfind, hst,
        hci, hla, htfind, hgid_ne, hgid_nm, bne_iff_ne]
    · simp [setup_gateway, SM.run_bind, SM.run_pure, Bind.bind, Pure.pure, Except.bind,
        SM.tryCatchAll, SM.catchExc, SM.liftE, SM.emit, SM.getWorld, callGetDefaultRegion,
        callLoadExistingConfig, load_existing_config, get_existing_gateway,
        probeGatewayById, probeGatewayByName, gatewayNameScan, get_existing_target,
        create_refund_lambda, callGetGateway, callListGateways, callListGatewayTargets,
        callUpdateFunctionCode, callGetFunction, callCreateRole, callAttachRolePolicy,
        callCreateFunction, callCreateOauthAuthorizer, callCreateMcpGateway,
        callCreateMcpGatewayTarget, writeConfigFile, objGet, objGetD,
        pyContains, pyOrStr, ConfigOut.toJVal, resolveRegion, hfs, hgi, hti, hfind, hst,
        hci, hla, htfind, hgid_ne, hgid_nm, hr, bne_iff_ne]


/-- World-component preservation across a provisioning stage that does not
touch gateways or targets. -/
structure FramePreserved (w w2 : World) : Prop where
  hDefaultRegion : w2.defaultRegion = w.defaultRegion
  hGateways : w2.gateways = w.gateways
  hTargets : w2.targets = w.targets
  hFreshGatewayId : w2.freshGatewayId = w.freshGatewayId
  hFreshGatewayArn : w2.freshGatewayArn = w.freshGatewayArn
  hFreshGatewayUrl : w2.freshGatewayUrl = w.freshGatewayUrl
  hFreshTargetId : w2.freshTargetId = w.freshTargetId
  hFreshClientInfo : w2.freshClientInfo = w.freshClientInfo
  hFreshLambdaArn : w2.freshLambdaArn = w.freshLambdaArn
  hTargetRespHasArn : w2.targetRespHasArn = w.targetRespHasArn
  hGetGatewayInject : w2.getGatewayInject = w.getGatewayInject
  hListGatewaysInject : w2.listGatewaysInject = w.listGatewaysInject
  hListTargetsInject : w2.listTargetsInject = w.listTargetsInject
  hCreateOauthInject : w2.createOauthInject = w.createOauthInject
  hCreateGatewayInject : w2.createGatewayInject = w.createGatewayInject
  hCreateTargetInject : w2.createTargetInject = w.createTargetInject

theorem framePreserved_refl (w : World) : FramePreserved w w :=
  ⟨rfl, rfl, rfl, rfl, rfl, rfl, rfl, rfl, rfl, rfl, rfl, rfl, rfl, rfl, rfl, rfl⟩

theorem FramePreserved.comp {w1 w2 w3 : World} (a : FramePreserved w1 w2)
    (b : FramePreserved w2 w3) : FramePreserved w1 w3 :=
  ⟨b.hDefaultRegion.trans a.hDefaultRegion, b.hGateways.trans a.hGateways,
   b.hTargets.trans a.hTargets, b.hFreshGatewayId.trans a.hFreshGatewayId,
   b.hFreshGatewayArn.trans a.hFreshGatewayArn,
   b.hFreshGatewayUrl.trans a.hFreshGatewayUrl,
   b.hFreshTargetId.trans a.hFreshTargetId,
   b.hFreshClientInfo.trans a.hFreshClientInfo,
   b.hFreshLambdaArn.trans a.hFreshLambdaArn,
   b.hTargetRespHasArn.trans a.hTargetRespHasArn,
   b.hGetGatewayInject.trans a.hGetGatewayInject,
   b.hListGatewaysInject.trans a.hListGatewaysInject,
   b.hListTargetsInject.trans a.hListTargetsInject,
   b.hCreateOauthInject.trans a.hCreateOauthInject,
   b.hCreateGatewayInject.trans a.hCreateGatewayInject,
   b.hCreateTargetInject.trans a.hCreateTargetInject⟩

/-- Appending a gateway whose id no earlier entry carries makes it the
`find?` result for that id. -/
theorem find_append_of_all_ne {l : List GatewayR} {gid : String}
    (h : ∀ x ∈ l, x.gatewayId ≠ gid) {g : GatewayR} (hg : g.gatewayId = gid) :
    (l ++ [g]).find? (fun x => x.gatewayId = gid) = some g := by
  rw [List.find?_append]
  have hl : l.find? (fun x => x.gatewayId = gid) = none := by
    rw [List.find?_eq_none]
    intro x hx
    simp [h x hx]
  rw [hl]
  simp [List.find?, hg]

theorem run_success_snapshotGood (regionArg roleArn : Option String) (w : World)
    (c : ConfigOut) (w1 : World) (tr : List Event)
    (hwf : WF w)
    (h : setup_gateway regionArg roleArn w = (.ok c, w1, tr)) :
    SnapshotGood regionArg c w1 := by
  obtain ⟨iUF, iCR, iCF, iGG, iLG, iLT, iCO, iCG, iCT, huniq, hidwf, hidfresh,
    hfr_ne, hfr_nm, hfci, hfla, hlarn⟩ := hwf
  simp only [setup_gateway] at h
  obtain ⟨region, wa, t1, t2, h1, h, htA⟩ := SM.bind_eq_ok h
  obtain ⟨cfgOpt, wb, t3, t4, h2, h, htB⟩ := SM.bind_eq_ok h
  obtain ⟨⟨g1, cog1, la1⟩, wc, t5, t6, h3, h, htC⟩ := SM.bind_eq_ok h
  obtain ⟨gateway2, wd, t7, t8, h4, h, htD⟩ := SM.bind_eq_ok h
  obtain ⟨lambda_arn, we, t9, t10, h5, h, htE⟩ := SM.bind_eq_ok h
  obtain ⟨cognito, wf2, t11, t12, h6, h, htF⟩ := SM.bind_eq_ok h
  obtain ⟨gateway, wg, t13, t14, h7, h, htG⟩ := SM.bind_eq_ok h
  obtain ⟨tgt, wh, t15, t16, h8, h, htH⟩ := SM.bind_eq_ok h
  obtain ⟨ltgt, wi, t17, t18, h9, h, htI⟩ := SM.bind_eq_ok h
  obtain ⟨u, wj, t19, t20, h10, h, htJ⟩ := SM.bind_eq_ok h
  -- Stage 1: region resolution
  have hst1 : wa = w ∧ region = resolveRegion regionArg w := by
    cases regionArg with
    | none =>
      simp only [callGetDefaultRegion, Prod.mk.injEq, Except.ok.injEq] at h1
      exact ⟨h1.2.1.symm, h1.1.symm⟩
    | some r =>
      dsimp only at h1
      by_cases hr : r = ""
      · rw [if_pos hr] at h1
        simp only [callGetDefaultRegion, Prod.mk.injEq, Except.ok.injEq] at h1
        exact ⟨h1.2.1.symm, by simp [resolveRegion, hr, h1.1.symm]⟩
      · rw [if_neg hr] at h1
        simp only [SM.run_pure, Prod.mk.injEq, Except.ok.injEq] at h1
        exact ⟨h1.2.1.symm, by simp [resolveRegion, hr, h1.1.symm]⟩
  obtain ⟨hwa, hregion⟩ := hst1
  rw [hwa] at h2
  -- Stage 2: snapshot load
  have hwb : wb = w := by
    simp only [callLoadExistingConfig, Prod.mk.injEq] at h2
    exact h2.2.1.symm
  rw [hwb] at h3
  -- Stage 3: snapshot-driven probe and reuse block
  have hst3 : wc = w ∧
      (∀ co : CognitoResp, cog1 = some co → pyTruthy co.client_info = true) ∧
      (∀ g : GatewayR, g1 = some g →
        ((g.status = "READY" ∨ g.status = "ACTIVE") ∧ g ∈ w.gateways)) := by
    cases cfgOpt with
    | none =>
      simp only [SM.run_pure, Prod.mk.injEq, Except.ok.injEq] at h3
      obtain ⟨⟨hg1, hcog1, _⟩, hwc, _⟩ := h3
      exact ⟨hwc.symm, fun co hco => by simp [← hcog1] at hco,
        fun g hg => by simp [← hg1] at hg⟩
    | some cfg =>
      dsimp only at h3
      by_cases htr : pyTruthy cfg = true
      · rw [if_pos htr] at h3
        obtain ⟨gidOpt, wp1, s1, s2, hx1, h3, hs⟩ := SM.bind_eq_ok h3
        cases cfg with
        | obj fields =>
          simp only [SM.liftE, objGet, Prod.mk.injEq, Except.ok.injEq] at hx1
          obtain ⟨hgid, hwp1, _⟩ := hx1
          rw [← hwp1] at h3
          obtain ⟨gwOpt, wp2, s3, s4, hx2, h3, hs2⟩ := SM.bind_eq_ok h3
          rcases get_existing_gateway_spec region w (some (optJVal gidOpt)) none huniq with
            ⟨tr0, hsp⟩ | ⟨g, tr0, hsp, hstg, hmemg⟩
          · rw [hsp] at hx2
            simp only [Prod.mk.injEq, Except.ok.injEq] at hx2
            obtain ⟨hgw, hwp2, _⟩ := hx2
            rw [← hgw, ← hwp2] at h3
            simp only [SM.run_pure, Prod.mk.injEq, Except.ok.injEq] at h3
            obtain ⟨⟨hg1, hcog1, _⟩, hwc, _⟩ := h3
            exact ⟨hwc.symm, fun co hco => by simp [← hcog1] at hco,
              fun g hg => by simp [← hg1] at hg⟩
          · rw [hsp] at hx2
            simp only [Prod.mk.injEq, Except.ok.injEq] at hx2
            obtain ⟨hgw, hwp2, _⟩ := hx2
            rw [← hgw, ← hwp2] at h3
            obtain ⟨ciOpt, wp3, s5, s6, hx3, h3, hs3⟩ := SM.bind_eq_ok h3
            simp only [SM.liftE, objGet, Prod.mk.injEq, Except.ok.injEq] at hx3
            obtain ⟨hci, hwp3, _⟩ := hx3
            rw [← hwp3] at h3
            obtain ⟨laOpt, wp4, s7, s8, hx4, h3, hs4⟩ := SM.bind_eq_ok h3
            simp only [SM.liftE, objGet, Prod.mk.injEq, Except.ok.injEq] at hx4
            obtain ⟨hla, hwp4, _⟩ := hx4
            rw [← hwp4] at h3
            simp only [SM.run_pure, Prod.mk.injEq, Except.ok.injEq] at h3
            obtain ⟨⟨hg1, hcog1, _⟩, hwc, _⟩ := h3
            refine ⟨hwc.symm, ?_, ?_⟩
            · intro co hco
              rw [← hcog1] at hco
              by_cases hciT : pyTruthyOpt ciOpt = true
              · rw [if_pos hciT] at hco
                cases hco
                cases ciOpt with
                | none => simp at hciT
                | some v => simpa using hciT
              · rw [if_neg hciT] at hco
                cases hco
            · intro g0 hg0
              rw [← hg1] at hg0
              cases hg0
              exact ⟨hstg, hmemg⟩
        | null => simp [SM.liftE, objGet] at hx1
        | bool b => simp [SM.liftE, objGet] at hx1
        | num n => simp [SM.liftE, objGet] at hx1
        | str sv => simp [SM.liftE, objGet] at hx1
        | arr xs => simp [SM.liftE, objGet] at hx1
      · rw [if_neg htr] at h3
        simp only [SM.run_pure, Prod.mk.injEq, Except.ok.injEq] at h3
        obtain ⟨⟨hg1, hcog1, _⟩, hwc, _⟩ := h3
        exact ⟨hwc.symm, fun co hco => by simp [← hcog1] at hco,
          fun g hg => by simp [← hg1] at hg⟩
  obtain ⟨hwc, hcogF, hg1F⟩ := hst3
  rw [hwc] at h4
  -- Stage 4: name probe when the snapshot gave no gateway
  have hst4 : wd = w ∧
      (∀ g : GatewayR, gateway2 = some g →
        ((g.status = "READY" ∨ g.status = "ACTIVE") ∧ g ∈ w.gateways)) := by
    cases g1 with
    | some g =>
      dsimp only at h4
      simp only [SM.run_pure, Prod.mk.injEq, Except.ok.injEq] at h4
      obtain ⟨hg2, hwd, _⟩ := h4
      refine ⟨hwd.symm, ?_⟩
      intro g0 hg0
      rw [← hg2] at hg0
      cases hg0
      exact hg1F g rfl
    | none =>
      dsimp only at h4
      rcases get_existing_gateway_spec region w none (some "TestGWforPolicyEngine") huniq with
        ⟨tr0, hsp⟩ | ⟨g, tr0, hsp, hstg, hmemg⟩
      · rw [hsp] at h4
        simp only [Prod.mk.injEq, Except.ok.injEq] at h4
        obtain ⟨hg2, hwd, _⟩ := h4
        exact ⟨hwd.symm, fun g0 hg0 => by simp [← hg2] at hg0⟩
      · rw [hsp] at h4
        simp only [Prod.mk.injEq, Except.ok.injEq] at h4
        obtain ⟨hg2, hwd, _⟩ := h4
        refine ⟨hwd.symm, ?_⟩
        intro g0 hg0
        rw [← hg2] at hg0
        cases hg0
        exact ⟨hstg, hmemg⟩
  obtain ⟨hwd, hg2F⟩ := hst4
  rw [hwd] at h5
  -- Stage 5: Lambda creation or reuse
  have hst5 : FramePreserved w we ∧ pyTruthy lambda_arn = true := by
    by_cases htr5 : pyTruthy la1 = true
    · rw [if_pos htr5] at h5
      simp only [SM.run_pure, Prod.mk.injEq, Except.ok.injEq] at h5
      obtain ⟨hlam, hwe, _⟩ := h5
      rw [← hwe, ← hlam]
      exact ⟨framePreserved_refl w, htr5⟩
    · rw [if_neg htr5] at h5
      obtain ⟨arn, wq, q1, q2, hcr, h5, hq⟩ := SM.bind_eq_ok h5
      simp only [SM.run_pure, Prod.mk.injEq, Except.ok.injEq] at h5
      obtain ⟨hlam, hwe, _⟩ := h5
      cases hfnd : w.lambdas.find? (fun x => x.functionName = "RefundLambda") with
      | some L =>
        rw [create_refund_lambda_update_path region "RefundLambda" w L iUF hfnd] at hcr
        simp only [Prod.mk.injEq, Except.ok.injEq] at hcr
        obtain ⟨harn, hwq, _⟩ := hcr
        refine ⟨?_, ?_⟩
        · rw [← hwe, ← hwq]
          exact framePreserved_refl w
        · rw [← hlam, ← harn]
          simp [bne_iff_ne, hlarn L (List.mem_of_find?_eq_some hfnd)]
      | none =>
        by_cases hrc : ("RefundLambda" ++ "-execution-role") ∈ w.roles
        · rw [create_refund_lambda_role_exists region "RefundLambda" w iUF hfnd iCR hrc
            iCF] at hcr
          simp only [Prod.mk.injEq, Except.ok.injEq] at hcr
          obtain ⟨harn, hwq, _⟩ := hcr
          refine ⟨?_, ?_⟩
          · rw [← hwe, ← hwq]
            exact ⟨rfl, rfl, rfl, rfl, rfl, rfl, rfl, rfl, rfl, rfl, rfl, rfl, rfl, rfl,
              rfl, rfl⟩
          · rw [← hlam, ← harn]
            simp [bne_iff_ne, hfla]
        · rw [create_refund_lambda_create_path region "RefundLambda" w iUF hfnd iCR hrc
            iCF] at hcr
          simp only [Prod.mk.injEq, Except.ok.injEq] at hcr
          obtain ⟨harn, hwq, _⟩ := hcr
          refine ⟨?_, ?_⟩
          · rw [← hwe, ← hwq]
            exact ⟨rfl, rfl, rfl, rfl, rfl, rfl, rfl, rfl, rfl, rfl, rfl, rfl, rfl, rfl,
              rfl, rfl⟩
          · rw [← hlam, ← harn]
            simp [bne_iff_ne, hfla]
  obtain ⟨hfrE, hlamT⟩ := hst5
  -- Stage 6: authorizer creation or reuse
  have hst6 : FramePreserved w wf2 ∧ pyTruthy cognito.client_info = true := by
    cases cog1 with
    | some co =>
      dsimp only at h6
      simp only [SM.run_pure, Prod.mk.injEq, Except.ok.injEq] at h6
      obtain ⟨hcog, hwf2, _⟩ := h6
      rw [← hwf2, ← hcog]
      exact ⟨hfrE, hcogF co rfl⟩
    | none =>
      dsimp only at h6
      have hoauth : we.createOauthInject = none := by rw [hfrE.hCreateOauthInject, iCO]
      simp only [callCreateOauthAuthorizer, hoauth, Prod.mk.injEq, Except.ok.injEq] at h6
      obtain ⟨hcog, hwf2, _⟩ := h6
      constructor
      · rw [← hwf2]
        exact hfrE.comp ⟨rfl, rfl, rfl, rfl, rfl, rfl, rfl, rfl, rfl, rfl, rfl, rfl, rfl,
          hoauth.symm, rfl, rfl⟩
      · rw [← hcog]
        show pyTruthy we.freshClientInfo = true
        rw [hfrE.hFreshClientInfo]
        exact hfci
  obtain ⟨hfrF, hcciT⟩ := hst6
  -- Stage 7: gateway creation or reuse
  have hst7 : (gateway.status = "READY" ∨ gateway.status = "ACTIVE") ∧
      gateway.gatewayId ≠ "" ∧ pyInStr "<" gateway.gatewayId = false ∧
      wg.gateways.find? (fun x => x.gatewayId = gateway.gatewayId) = some gateway ∧
      wg.targets = w.targets ∧ wg.defaultRegion = w.defaultRegion ∧
      wg.getGatewayInject = none ∧ wg.listTargetsInject = none ∧
      wg.createTargetInject = none := by
    cases gateway2 with
    | some g =>
      dsimp only at h7
      simp only [SM.run_pure, Prod.mk.injEq, Except.ok.injEq] at h7
      obtain ⟨hgw, hwg, _⟩ := h7
      obtain ⟨hstg, hmemg⟩ := hg2F g rfl
      rw [← hwg, ← hgw]
      refine ⟨hstg, (hidwf g hmemg).1, (hidwf g hmemg).2, ?_, hfrF.hTargets, hfrF.hDefaultRegion,
        by rw [hfrF.hGetGatewayInject, iGG], by rw [hfrF.hListTargetsInject, iLT],
        by rw [hfrF.hCreateTargetInject, iCT]⟩
      rw [hfrF.hGateways]
      exact find_id_of_mem_unique hmemg huniq
    | none =>
      dsimp only at h7
      have hcg : wf2.createGatewayInject = none := by rw [hfrF.hCreateGatewayInject, iCG]
      simp only [callCreateMcpGateway, hcg, Prod.mk.injEq, Except.ok.injEq] at h7
      obtain ⟨hgw, hwg, _⟩ := h7
      rw [← hwg, ← hgw]
      refine ⟨Or.inl rfl, ?_, ?_, ?_, ?_, ?_, ?_, ?_, ?_⟩
      · show wf2.freshGatewayId ≠ ""
        rw [hfrF.hFreshGatewayId]
        exact hfr_ne
      · show pyInStr "<" wf2.freshGatewayId = false
        rw [hfrF.hFreshGatewayId]
        exact hfr_nm
      · show (wf2.gateways ++ [_]).find? _ = _
        rw [hfrF.hGateways, hfrF.hFreshGatewayId]
        exact find_append_of_all_ne (fun x hx => hidfresh x hx) rfl
      · exact hfrF.hTargets
      · exact hfrF.hDefaultRegion
      · rw [hfrF.hGetGatewayInject, iGG]
      · rw [hfrF.hListTargetsInject, iLT]
      · rw [hfrF.hCreateTargetInject, iCT]
  obtain ⟨hgwSt, hgwNe, hgwNm, hgwFind, hwgT, hwgR, hwgGG, hwgLT, hwgCT⟩ := hst7
  -- Stage 8: target probe
  have hst8 : wh = wg ∧ tgt = (wg.targetsOf gateway.gatewayId).find?
      (fun t => t.name = "RefundToolTarget") := by
    simp only [get_existing_target, SM.tryCatchAll, SM.run_bind, SM.run_pure,
      callListGatewayTargets, hwgLT, Prod.mk.injEq, Except.ok.injEq] at h8
    exact ⟨h8.2.1.symm, h8.1.symm⟩
  obtain ⟨hwh, htgtEq⟩ := hst8
  rw [hwh] at h9
  -- Stage 9: target creation or reuse
  have hst9 : wi.gateways = wg.gateways ∧ wi.defaultRegion = wg.defaultRegion ∧
      wi.getGatewayInject = wg.getGatewayInject ∧
      wi.listTargetsInject = wg.listTargetsInject ∧
      (∃ t0 : TargetR, (wi.targetsOf gateway.gatewayId).find?
        (fun t => t.name = "RefundToolTarget") = some t0) ∧
      pyOrStr ltgt.gatewayArn gateway.gatewayArn = gateway.gatewayArn := by
    rcases htf : (wg.targetsOf gateway.gatewayId).find?
        (fun t => t.name = "RefundToolTarget") with _ | t0
    · -- probe found nothing: the target is created
      rw [htf] at htgtEq
      rw [htgtEq] at h9
      dsimp only at h9
      simp only [SM.catchExc, callCreateMcpGatewayTarget, hwgCT, htf, Option.isSome_none,
        Bool.false_eq_true, if_false, Prod.mk.injEq, Except.ok.injEq] at h9
      obtain ⟨hlt, hwi, _⟩ := h9
      refine ⟨by rw [← hwi], by rw [← hwi], by rw [← hwi], by rw [← hwi], ?_, ?_⟩
      · refine ⟨⟨wg.freshTargetId, "RefundToolTarget"⟩, ?_⟩
        have htg : wi.targetsOf gateway.gatewayId =
            wg.targetsOf gateway.gatewayId ++ [⟨wg.freshTargetId, "RefundToolTarget"⟩] := by
          rw [← hwi]
          simp [World.targetsOf, List.filterMap_append]
        rw [htg, List.find?_append, htf]
        simp [List.find?]
      · rw [← hlt]
        by_cases harn : wg.targetRespHasArn = true
        · rw [if_pos harn]
          exact pyOrStr_self _
        · rw [if_neg harn]
          rfl
    · -- probe found the target: reuse
      rw [htf] at htgtEq
      rw [htgtEq] at h9
      dsimp only at h9
      simp only [SM.run_pure, Prod.mk.injEq, Except.ok.injEq] at h9
      obtain ⟨hlt, hwi, _⟩ := h9
      refine ⟨by rw [← hwi], by rw [← hwi], by rw [← hwi], by rw [← hwi],
        ⟨t0, by rw [← hwi]; exact htf⟩, ?_⟩
      rw [← hlt]
      exact pyOrStr_self _
  obtain ⟨hwiG, hwiR, hwiGG, hwiLT, ⟨t0, ht0⟩, hArn⟩ := hst9
  -- Stage 10: persist and return
  simp only [writeConfigFile, Prod.mk.injEq] at h10
  obtain ⟨_, hwj, _⟩ := h10
  simp only [SM.run_pure, Prod.mk.injEq, Except.ok.injEq] at h
  obtain ⟨hc, hw1, _⟩ := h
  refine ⟨?_, ?_, ?_, ?_, ?_, ?_, ?_, ?_, ?_, ?_⟩
  · rw [← hw1, ← hwj]
    show wi.getGatewayInject = none
    rw [hwiGG]
    exact hwgGG
  · rw [← hw1, ← hwj]
    show wi.listTargetsInject = none
    rw [hwiLT]
    exact hwgLT
  · rw [← hw1, ← hwj, ← hc]
  · rw [← hc]
    exact hgwNe
  · rw [← hc]
    exact hgwNm
  · refine ⟨gateway, ?_, hgwSt, ?_, ?_, ?_⟩
    · rw [← hw1, ← hwj, ← hc]
      show wi.gateways.find? _ = some gateway
      rw [hwiG]
      exact hgwFind
    · rw [← hc]
    · rw [← hc]
    · rw [← hc]
      show gateway.gatewayArn = pyOrStr ltgt.gatewayArn gateway.gatewayArn
      exact hArn.symm
  · rw [← hc]
    exact hcciT
  · rw [← hc]
    exact hlamT
  · refine ⟨t0, ?_⟩
    rw [← hw1, ← hwj, ← hc]
    show (wi.targetsOf gateway.gatewayId).find? _ = some t0
    exact ht0
  · rw [← hc]
    show region = resolveRegion regionArg w1
    rw [hregion]
    refine (resolveRegion_congr ?_).symm
    rw [← hw1, ← hwj]
    show wi.defaultRegion = w.defaultRegion
    rw [hwiR, hwgR]


/-- C1: idempotence.  Over every well-formed environment (no injected
faults, distinct well-formed gateway ids, well-formed fresh-resource
attributes), if a first run completes successfully then a second run over
the resulting environment, with the same region argument and no external
change in between, completes successfully with the identical config record,
issues zero creation calls (only the by-id probe, the target listing, and
the file write), and rewrites `gateway_config.json` unchanged. -/
theorem c1_idempotent (regionArg roleArn1 roleArn2 : Option String) (w : World)
    (c : ConfigOut) (w1 : World) (tr : List Event)
    (hwf : WF w)
    (h : setup_gateway regionArg roleArn1 w = (.ok c, w1, tr)) :
    runResult (setup_gateway regionArg roleArn2 w1) = .ok c ∧
    creationCalls (runTrace (setup_gateway regionArg roleArn2 w1)) = [] ∧
    (runWorld (setup_gateway regionArg roleArn2 w1)).fileState = w1.fileState := by
  have hsg := run_success_snapshotGood regionArg roleArn1 w c w1 tr hwf h
  have hrun := snapshotGood_rerun regionArg roleArn2 c w1 hsg
  have hfs : w1.fileState = .content c.toJVal := hsg.2.2.1
  refine ⟨?_, ?_, ?_⟩
  · rw [runResult, hrun]
  · rw [runTrace, hrun]
    rfl
  · rw [runWorld, hrun]
    exact hfs.symm

/-- Witness for C1: the environment left behind by the empty-environment
first run of `setup_gateway`, rerun concretely. -/
theorem c1_idempotent_witness :
    runResult (setup_gateway none none
      { baseWorld with
          fileState := .content (ConfigOut.toJVal
            { gateway_url := "https://gw-abc123.gateway.example.com/mcp"
              gateway_id := "gw-abc123"
              gateway_arn := "arn:aws:bedrock-agentcore:us-east-1:123456789012:gateway/gw-abc123"
              region := "us-east-1"
              client_info := .obj [("client_id", .str "cid-1"), ("client_secret", .str "sec-1")]
              lambda_arn := .str "arn:aws:lambda:us-east-1:123456789012:function:RefundLambda" })
          lambdas := [⟨"RefundLambda", "arn:aws:lambda:us-east-1:123456789012:function:RefundLambda"⟩]
          roles := ["RefundLambda-execution-role"]
          gateways := [⟨"gw-abc123", "TestGWforPolicyEngine", "READY",
            "arn:aws:bedrock-agentcore:us-east-1:123456789012:gateway/gw-abc123",
            "https://gw-abc123.gateway.example.com/mcp"⟩]
          targets := [("gw-abc123", ⟨"tg-001", "RefundToolTarget"⟩)]
          authorizers := ["TestGateway"] }) =
      .ok { gateway_url := "https://gw-abc123.gateway.example.com/mcp"
            gateway_id := "gw-abc123"
            gateway_arn := "arn:aws:bedrock-agentcore:us-east-1:123456789012:gateway/gw-abc123"
            region := "us-east-1"
            client_info := .obj [("client_id", .str "cid-1"), ("client_secret", .str "sec-1")]
            lambda_arn := .str "arn:aws:lambda:us-east-1:123456789012:function:RefundLambda" } ∧
    creationCalls (runTrace (setup_gateway none none
      { baseWorld with
          fileState := .content (ConfigOut.toJVal
            { gateway_url := "https://gw-abc123.gateway.example.com/mcp"
              gateway_id := "gw-abc123"
              gateway_arn := "arn:aws:bedrock-agentcore:us-east-1:123456789012:gateway/gw-abc123"
              region := "us-east-1"
              client_info := .obj [("client_id", .str "cid-1"), ("client_secret", .str "sec-1")]
              lambda_arn := .str "arn:aws:lambda:us-east-1:123456789012:function:RefundLambda" })
          lambdas := [⟨"RefundLambda", "arn:aws:lambda:us-east-1:123456789012:function:RefundLambda"⟩]
          roles := ["RefundLambda-execution-role"]
          gateways := [⟨"gw-abc123", "TestGWforPolicyEngine", "READY",
            "arn:aws:bedrock-agentcore:us-east-1:123456789012:gateway/gw-abc123",
            "https://gw-abc123.gateway.example.com/mcp"⟩]
          targets := [("gw-abc123", ⟨"tg-001", "RefundToolTarget"⟩)]
          authorizers := ["TestGateway"] })) = [] :=
  ⟨(c1_idempotent none none none baseWorld _ _ _ (by unfold WF; decide) rfl).1,
   (c1_idempotent none none none baseWorld _ _ _ (by unfold WF; decide) rfl).2.1⟩

end SetupGateway
